import Mathlib

/-!
Verification development for the webrtc-mediasoup signaling server.

The embedding models, from the source:
* the room registry of `src/express/index.ts` (`getOrCreateRoom`, the
  `connectionrequest` handler serialized through a global FIFO `AwaitQueue`,
  and the `room.on(close)` registry cleanup);
* `Room` of the main room file: peer admission (`handleProtooConnection`),
  the protoo request dispatcher (`_handleProtooRequest`), the consumer graph
  builder (`_createConsumer`, `_createDataConsumer`) and the broadcaster
  administration surface (`createBroadcaster`, `createBroadcasterTransport`,
  `createBroadcasterProducer`, `createBroadcasterConsumer`,
  `createBroadcasterDataProducer`);
* the bot data producer of `src/@types/Bot.ts` (label `bot`).

Calls into the external media-routing engine (mediasoup) and into remote
peers are modelled by oracle parameters (engine-assigned identifiers,
success/failure booleans) and by an explicit event trace recording every
side effect (engine calls, notifications, protoo requests).
-/

namespace WebrtcMediasoup

/-! ## Room registry (src/express/index.ts)

Room instances are identified by `Nat` tokens (`nextRoom` plays the role of
object identity).  `created` records, in order, the room ids for which a
`Room.create` actually ran, so that "exactly one Room is constructed" is a
statement about this list.  The `AwaitQueue` serializes all
`connectionrequest` tasks, so a batch of concurrent requests is modelled as
a list processed strictly in FIFO order by `runQueue`.  The `createOk` flag
of a request is the oracle for whether `Room.create` succeeds; on failure
the error propagates to the caller (`Except.error`) and no entry is
registered. -/

structure Registry where
  rooms : List (String × Nat)
  nextRoom : Nat
  created : List String
deriving DecidableEq

/-- `rooms.get(roomId)` on the registry map. -/
def lookupRoom (st : Registry) (roomId : String) : Option Nat :=
  (st.rooms.find? fun e => e.1 = roomId).map (fun e => e.2)

/-- `getOrCreateRoom` of `src/express/index.ts` (lines 101-111): return the
existing Room if present, otherwise run `Room.create` (oracle `createOk`),
register the new Room and return it; a creation failure propagates and
registers nothing. -/
def getOrCreateRoom (st : Registry) (roomId : String) (createOk : Bool) :
    Except Unit Nat × Registry :=
  match lookupRoom st roomId with
  | some r => (Except.ok r, st)
  | none =>
    if createOk then
      (Except.ok st.nextRoom,
       { rooms := (roomId, st.nextRoom) :: st.rooms,
         nextRoom := st.nextRoom + 1,
         created := st.created ++ [roomId] })
    else (Except.error (), st)

/-- The registry's `room.on(close, () => rooms.delete(roomId))` handler. -/
def onRoomClose (st : Registry) (roomId : String) : Registry :=
  { st with rooms := st.rooms.filter fun e => e.1 ≠ roomId }

/-- FIFO processing of queued `connectionrequest` tasks: each request is a
`(roomId, createOk)` pair; the result list pairs each room id with the
outcome its caller observes. -/
def runQueue (st : Registry) : List (String × Bool) → List (String × Except Unit Nat) × Registry
  | [] => ([], st)
  | (rid, ok) :: rest =>
    let step := getOrCreateRoom st rid ok
    let rec' := runQueue step.2 rest
    ((rid, step.1) :: rec'.1, rec'.2)

/-- Number of Room constructions that ran for a given room id. -/
def createdCount (st : Registry) (roomId : String) : Nat :=
  st.created.count roomId

/-! ## Data model (Room file) -/

/-- A mediasoup transport as tracked by the room: its engine id and the
`appData.consuming` flag set at `createWebRtcTransport` time (broadcaster
transports carry no such flag, hence `consuming := false` there). -/
structure TransportM where
  id : String
  consuming : Bool
deriving DecidableEq

/-- A producer handle: engine id, media kind, and the `appData.peerId`
attached by the `produce` handler (absent for broadcaster producers). -/
structure ProducerM where
  id : String
  kind : String
  appDataPeerId : Option String
deriving DecidableEq

/-- A data producer handle: engine id and label. -/
structure DataProducerM where
  id : String
  label : String
deriving DecidableEq

/-- The `peer.data` bag initialised by `handleProtooConnection`. -/
structure PeerData where
  joined : Bool
  displayName : Option String
  device : Option String
  rtpCapabilities : Option String
  sctpCapabilities : Option String
  transports : List TransportM
  producers : List ProducerM
  consumers : List String
  dataProducers : List DataProducerM
  dataConsumers : List String
deriving DecidableEq

/-- A protoo peer: its id plus its `data` bag. -/
structure PeerM where
  id : String
  data : PeerData
deriving DecidableEq

/-- A broadcaster (`Broadcaster` of the room file): same collections as a
peer but no live signaling connection. -/
structure BroadcasterM where
  id : String
  displayName : String
  deviceName : String
  rtpCapabilities : Option String
  transports : List TransportM
  producers : List ProducerM
  consumers : List String
  dataProducers : List DataProducerM
  dataConsumers : List String
deriving DecidableEq

/-- Observable side effects: calls into the media-routing engine, protoo
requests awaiting acknowledgment, fire-and-forget notifications, and the
consumer-graph-builder invocations made by the dispatcher. -/
inductive Event
  | routerConsume (producerId : String) (paused : Bool)
  | routerConsumeData (dataProducerId : String)
  | routerProduce (transportId kind : String)
  | routerProduceData (transportId label : String)
  | routerCreateTransport (transportId : String)
  | consumerResume (consumerId : String)
  | newConsumerRequest (toPeer producerPeerId producerId consumerId : String)
  | newDataConsumerRequest (toPeer : String) (producerPeer : Option String)
      (dataProducerId dataConsumerId : String)
  | notifyNewPeer (toPeer newPeerId displayName device : String)
  | notifyPeerClosed (toPeer closedPeerId : String)
  | notifyOther (toPeer method : String)
  | consumerCall (consumerPeerId producerPeerId producerId : String)
  | dataConsumerCall (consumerPeerId : String) (producerPeer : Option String)
      (dataProducerId label : String)
  | botHandleDataProducer (dataProducerId : String)
  | transportClose (transportId : String)
  | producerClose (producerId : String)
  | addAudioProducer (producerId : String)
  | protooRoomClose
  | routerClose
  | botClose
  | emitRoomClosed (roomId : String)
  | throttleStart
  | throttleStop
deriving DecidableEq

/-- The `Room` state: protoo peers, broadcasters, the bot's data producer
(label `bot`, produced by `Bot.create`), the `_closed` and
`_networkThrottled` flags. -/
structure RoomM where
  roomId : String
  closed : Bool
  peers : List PeerM
  broadcasters : List BroadcasterM
  bot : DataProducerM
  networkThrottled : Bool
deriving DecidableEq

/-- `protooRoom.getPeer(peerId)`. -/
def findPeer (room : RoomM) (peerId : String) : Option PeerM :=
  room.peers.find? fun p => p.id = peerId

/-- `_getJoinedPeers({ excludePeer })`: protoo peers whose `data.joined`
is set, minus the excluded peer. -/
def getJoinedPeers (room : RoomM) (excludePeerId : Option String) : List PeerM :=
  room.peers.filter fun p => p.data.joined && decide (excludePeerId ≠ some p.id)

/-- Replace the data bag of the peer with the given id. -/
def updatePeer (room : RoomM) (peerId : String) (f : PeerData → PeerData) : RoomM :=
  { room with
    peers := room.peers.map fun p =>
      if p.id = peerId then { p with data := f p.data } else p }

def findBroadcaster (room : RoomM) (broadcasterId : String) : Option BroadcasterM :=
  room.broadcasters.find? fun b => b.id = broadcasterId

def updateBroadcaster (room : RoomM) (broadcasterId : String)
    (f : BroadcasterM → BroadcasterM) : RoomM :=
  { room with
    broadcasters := room.broadcasters.map fun b =>
      if b.id = broadcasterId then f b else b }

/-- The fields `handleProtooConnection` initialises on `peer.data`. -/
def initialPeerData : PeerData :=
  { joined := false
    displayName := none
    device := none
    rtpCapabilities := none
    sctpCapabilities := none
    transports := []
    producers := []
    consumers := []
    dataProducers := []
    dataConsumers := [] }

/-- The state of a `Room` freshly built by `Room.create`: no peers, no
broadcasters, not closed, the bot data producer installed with label
`bot` (from `Bot.create`: `transport.produceData({ label: bot })`). -/
def initialRoom (roomId botDataProducerId : String) : RoomM :=
  { roomId := roomId
    closed := false
    peers := []
    broadcasters := []
    bot := { id := botDataProducerId, label := "bot" }
    networkThrottled := false }

/-! ## Consumer graph builder (`_createConsumer`, `_createDataConsumer`)

Both functions act on the receiving peer's data bag and emit an event
trace.  The engine and the remote peer are oracles: `canConsume` is the
router's `canConsume` answer, `consumeResult` is `some consumerId` when
`transport.consume` succeeds and `none` when it throws, `ackOk` is whether
the `newConsumer` protoo request is positively acknowledged. -/

structure ConsumerEnv where
  canConsume : Bool
  consumeResult : Option String
  ackOk : Bool
deriving DecidableEq

/-- `_createConsumer`: skip when the receiver declared no
`rtpCapabilities` or the router says it cannot consume; find the
receiver's transport flagged `consuming`; create the consumer with
`paused: true`; store it; send the `newConsumer` request; only upon the
positive acknowledgment resume the consumer and send the initial
`consumerScore` notification; on any failure stop without retry. -/
def createConsumer (env : ConsumerEnv) (consumerPeer : PeerM)
    (producerPeerId : String) (producer : ProducerM) : PeerData × List Event :=
  if consumerPeer.data.rtpCapabilities.isNone || !env.canConsume then
    (consumerPeer.data, [])
  else
    match consumerPeer.data.transports.find? (fun t => t.consuming) with
    | none => (consumerPeer.data, [])
    | some _ =>
      match env.consumeResult with
      | none => (consumerPeer.data, [Event.routerConsume producer.id true])
      | some cid =>
        let d := { consumerPeer.data with
                   consumers := consumerPeer.data.consumers ++ [cid] }
        if env.ackOk then
          (d, [Event.routerConsume producer.id true,
               Event.newConsumerRequest consumerPeer.id producerPeerId producer.id cid,
               Event.consumerResume cid,
               Event.notifyOther consumerPeer.id "consumerScore"])
        else
          (d, [Event.routerConsume producer.id true,
               Event.newConsumerRequest consumerPeer.id producerPeerId producer.id cid])

/-- `_createDataConsumer`: skip when the receiver declared no
`sctpCapabilities`; find the consuming transport; create the data
consumer (oracle `consumeDataResult`); store it; send the
`newDataConsumer` request (`producerPeer` is `none` for the bot data
producer); there is no pause/resume phase. -/
def createDataConsumer (consumeDataResult : Option String)
    (dataConsumerPeer : PeerM) (dataProducerPeer : Option String)
    (dataProducer : DataProducerM) : PeerData × List Event :=
  if dataConsumerPeer.data.sctpCapabilities.isNone then
    (dataConsumerPeer.data, [])
  else
    match dataConsumerPeer.data.transports.find? (fun t => t.consuming) with
    | none => (dataConsumerPeer.data, [])
    | some _ =>
      match consumeDataResult with
      | none => (dataConsumerPeer.data, [Event.routerConsumeData dataProducer.id])
      | some dcid =>
        ({ dataConsumerPeer.data with
           dataConsumers := dataConsumerPeer.data.dataConsumers ++ [dcid] },
         [Event.routerConsumeData dataProducer.id,
          Event.newDataConsumerRequest dataConsumerPeer.id dataProducerPeer
            dataProducer.id dcid])

/-! ## Broadcaster administration -/

/-- One entry of the `peers` reply of `createBroadcaster`: a joined peer
and those of its producers the broadcaster can consume. -/
structure BroadcasterPeerInfo where
  id : String
  producerIds : List String
deriving DecidableEq

/-- `createBroadcaster`: validate the body, refuse a duplicate id, store
the broadcaster, notify every joined peer `newPeer` immediately (device
flag `broadcaster`), and reply with the joined peers and the producers
the broadcaster can consume (only when it supplied `rtpCapabilities`).
`canConsume` is the router oracle, by producer id. -/
def createBroadcaster (room : RoomM) (id displayName deviceName : String)
    (rtpCapabilities : Option String) (canConsume : String → Bool) :
    Except String (List BroadcasterPeerInfo) × RoomM × List Event :=
  if id = "" then (Except.error "missing body.id", room, [])
  else if displayName = "" then (Except.error "missing body.displayName", room, [])
  else if deviceName = "" then (Except.error "missing body.device.name", room, [])
  else if (findBroadcaster room id).isSome then
    (Except.error "broadcaster already exists", room, [])
  else
    let b : BroadcasterM :=
      { id := id
        displayName := displayName
        deviceName := deviceName
        rtpCapabilities := rtpCapabilities
        transports := []
        producers := []
        consumers := []
        dataProducers := []
        dataConsumers := [] }
    let room' := { room with broadcasters := room.broadcasters ++ [b] }
    let notifies := (getJoinedPeers room none).map fun p =>
      Event.notifyNewPeer p.id id displayName deviceName
    let peerInfos :=
      if rtpCapabilities.isSome then
        (getJoinedPeers room none).map fun p =>
          { id := p.id
            producerIds := (p.data.producers.filter fun pr => canConsume pr.id).map
              (fun pr => pr.id) }
      else []
    (Except.ok peerInfos, room', notifies)

/-- `createBroadcasterTransport` (both the `webrtc` and the `plain`
branch store a transport; broadcaster transports carry no
`appData.consuming` flag). -/
def createBroadcasterTransport (room : RoomM) (broadcasterId typ newTransportId : String) :
    Except String String × RoomM × List Event :=
  match findBroadcaster room broadcasterId with
  | none => (Except.error "broadcaster does not exist", room, [])
  | some _ =>
    if typ = "webrtc" ∨ typ = "plain" then
      (Except.ok newTransportId,
       updateBroadcaster room broadcasterId fun b =>
         { b with transports := b.transports ++ [{ id := newTransportId, consuming := false }] },
       [Event.routerCreateTransport newTransportId])
    else (Except.error "invalid type", room, [])

/-- `createBroadcasterProducer`: require the broadcaster and the
referenced transport; create the producer (engine-assigned id
`newProducerId`, no `appData.peerId`); store it; fan a `_createConsumer`
invocation out to every currently joined peer; register audio producers
with the audio level observer. -/
def createBroadcasterProducer (room : RoomM)
    (broadcasterId transportId kind newProducerId : String) :
    Except String String × RoomM × List Event :=
  match findBroadcaster room broadcasterId with
  | none => (Except.error "broadcaster does not exist", room, [])
  | some _ =>
    match (room.broadcasters.find? fun b => b.id = broadcasterId).bind
        (fun b => b.transports.find? fun t => t.id = transportId) with
    | none => (Except.error "transport does not exist", room, [])
    | some _ =>
      let producer : ProducerM := { id := newProducerId, kind := kind, appDataPeerId := none }
      let room' := updateBroadcaster room broadcasterId fun b =>
        { b with producers := b.producers ++ [producer] }
      let fanout := (getJoinedPeers room' none).map fun p =>
        Event.consumerCall p.id broadcasterId newProducerId
      let audio := if kind = "audio" then [Event.addAudioProducer newProducerId] else []
      (Except.ok newProducerId, room',
       [Event.routerProduce transportId kind] ++ fanout ++ audio)

/-- `createBroadcasterConsumer`: require the broadcaster, its declared
`rtpCapabilities` and the referenced transport; create the consumer via
`transport.consume({ producerId, rtpCapabilities })` — with no `paused`
flag, so unpaused — store it and return its parameters directly; no
`newConsumer` request and no resume step. -/
def createBroadcasterConsumer (room : RoomM)
    (broadcasterId transportId producerId : String) (newConsumerId : Option String) :
    Except String (String × String) × RoomM × List Event :=
  match findBroadcaster room broadcasterId with
  | none => (Except.error "broadcaster does not exist", room, [])
  | some b =>
    if b.rtpCapabilities.isNone then
      (Except.error "broadcaster does not have rtpCapabilities", room, [])
    else
      match b.transports.find? (fun t => t.id = transportId) with
      | none => (Except.error "transport does not exist", room, [])
      | some _ =>
        match newConsumerId with
        | none => (Except.error "consume failed", room,
                   [Event.routerConsume producerId false])
        | some cid =>
          (Except.ok (cid, producerId),
           updateBroadcaster room broadcasterId fun b' =>
             { b' with consumers := b'.consumers ++ [cid] },
           [Event.routerConsume producerId false])

/-- `createBroadcasterDataProducer`: require the broadcaster and the
transport; create and store the data producer.  The per-peer
data-consumer fan-out present on the media path is absent here (it is
commented out in the source), so no `dataConsumerCall` is emitted. -/
def createBroadcasterDataProducer (room : RoomM)
    (broadcasterId transportId label newDataProducerId : String) :
    Except String String × RoomM × List Event :=
  match findBroadcaster room broadcasterId with
  | none => (Except.error "broadcaster does not exist", room, [])
  | some b =>
    match b.transports.find? (fun t => t.id = transportId) with
    | none => (Except.error "transport does not exist", room, [])
    | some _ =>
      (Except.ok newDataProducerId,
       updateBroadcaster room broadcasterId fun b' =>
         { b' with dataProducers := b'.dataProducers ++ [{ id := newDataProducerId, label := label }] },
       [Event.routerProduceData transportId label])

/-! ## Protoo request dispatch (`_handleProtooRequest`)

Each request constructor carries the client payload plus the oracles for
the engine calls the handler makes (engine-assigned identifiers, success
flags).  Thrown errors surface as rejects through the wrapper around the
dispatcher (`.catch(error => reject(error))`), modelled by
`Outcome.rejectErr`; explicit `reject(code, msg)` calls are
`Outcome.rejectCode`. -/

inductive ProtooReq
  | getRouterRtpCapabilities
  | join (displayName device : String) (rtpCapabilities sctpCapabilities : Option String)
  | createWebRtcTransport (newTransportId : String) (consuming : Bool)
  | connectWebRtcTransport (transportId : String)
  | restartIce (transportId : String)
  | produce (transportId kind newProducerId : String)
  | closeProducer (producerId : String)
  | pauseProducer (producerId : String)
  | resumeProducer (producerId : String)
  | pauseConsumer (consumerId : String)
  | resumeConsumer (consumerId : String)
  | setConsumerPreferredLayers (consumerId : String)
  | setConsumerPriority (consumerId : String)
  | requestConsumerKeyFrame (consumerId : String)
  | produceData (transportId label newDataProducerId : String)
  | changeDisplayName (displayName : String)
  | mixerDataChanged
  | getTransportStats (transportId : String)
  | getProducerStats (producerId : String)
  | getConsumerStats (consumerId : String)
  | getDataProducerStats (dataProducerId : String)
  | getDataConsumerStats (dataConsumerId : String)
  | applyNetworkThrottle (secret : Option String) (throttleOk : Bool)
  | resetNetworkThrottle (secret : Option String) (throttleOk : Bool)
  | unknownMethod (method : String)
deriving DecidableEq

inductive Outcome
  | accept
  | rejectErr (message : String)
  | rejectCode (code : Nat) (message : String)
deriving DecidableEq

/-- The guard `!secret || secret !== process.env.NETWORK_THROTTLE_SECRET`
of the network-throttle handlers: `none` models an absent field, an empty
string is falsy, and the strict comparison fails whenever the configured
secret differs (or is itself absent). -/
def throttleSecretRejected (secret envSecret : Option String) : Bool :=
  match secret with
  | none => true
  | some s => s = "" || envSecret ≠ some s

/-- The view of a joined participant the `join` handler iterates over:
its id and its producer/data-producer collections.  The handler first
marks the joining peer joined, so `_getJoinedPeers()` includes the peer
itself (whose collections are empty at that point). -/
def joinedPeerViews (room : RoomM) : List (String × List ProducerM × List DataProducerM) :=
  (getJoinedPeers room none).map (fun p => (p.id, p.data.producers, p.data.dataProducers))
    ++ room.broadcasters.map (fun b => (b.id, b.producers, b.dataProducers))

/-- The consumer-graph-builder invocations the `join` handler makes for
one already-joined participant: a `_createConsumer` per producer and a
`_createDataConsumer` per data producer whose label is not `bot`. -/
def joinFanoutFor (newPeerId : String)
    (v : String × List ProducerM × List DataProducerM) : List Event :=
  v.2.1.map (fun pr => Event.consumerCall newPeerId v.1 pr.id)
    ++ (v.2.2.filter fun dp => dp.label ≠ "bot").map
      (fun dp => Event.dataConsumerCall newPeerId (some v.1) dp.id dp.label)

/-- `_handleProtooRequest` for a peer of the room.  The result is the
terminal outcome, the updated room, and the trace of side effects.  The
peer is the one registered for the protoo `request` event, so it is
looked up first. -/
def handleProtooRequest (envSecret : Option String) (room : RoomM)
    (peerId : String) (req : ProtooReq) : Outcome × RoomM × List Event :=
  match findPeer room peerId with
  | none => (Outcome.rejectErr "peer not found", room, [])
  | some peer =>
    match req with
    | ProtooReq.getRouterRtpCapabilities => (Outcome.accept, room, [])
    | ProtooReq.join displayName device rtpCapabilities sctpCapabilities =>
      if peer.data.joined then (Outcome.rejectErr "Peer already joined", room, [])
      else
        let room1 := updatePeer room peerId fun d =>
          { d with
            joined := true
            displayName := some displayName
            device := some device
            rtpCapabilities := rtpCapabilities
            sctpCapabilities := sctpCapabilities }
        let fanout := (joinedPeerViews room1).flatMap (joinFanoutFor peerId)
        let botAttach := [Event.dataConsumerCall peerId none room1.bot.id room1.bot.label]
        let newPeerNotifies := (getJoinedPeers room1 (some peerId)).map fun op =>
          Event.notifyNewPeer op.id peerId displayName device
        (Outcome.accept, room1, fanout ++ botAttach ++ newPeerNotifies)
    | ProtooReq.createWebRtcTransport newTransportId consuming =>
      (Outcome.accept,
       updatePeer room peerId fun d =>
         { d with transports := d.transports ++ [{ id := newTransportId, consuming := consuming }] },
       [Event.routerCreateTransport newTransportId])
    | ProtooReq.connectWebRtcTransport transportId =>
      match peer.data.transports.find? (fun t => t.id = transportId) with
      | none => (Outcome.rejectErr "transport not found", room, [])
      | some _ => (Outcome.accept, room, [])
    | ProtooReq.restartIce transportId =>
      match peer.data.transports.find? (fun t => t.id = transportId) with
      | none => (Outcome.rejectErr "transport not found", room, [])
      | some _ => (Outcome.accept, room, [])
    | ProtooReq.produce transportId kind newProducerId =>
      if !peer.data.joined then (Outcome.rejectErr "Peer not yet joined", room, [])
      else
        match peer.data.transports.find? (fun t => t.id = transportId) with
        | none => (Outcome.rejectErr "transport not found", room, [])
        | some _ =>
          let producer : ProducerM :=
            { id := newProducerId, kind := kind, appDataPeerId := some peerId }
          let room1 := updatePeer room peerId fun d =>
            { d with producers := d.producers ++ [producer] }
          let fanout := (getJoinedPeers room1 (some peerId)).map fun op =>
            Event.consumerCall op.id peerId newProducerId
          let audio := if kind = "audio" then [Event.addAudioProducer newProducerId] else []
          (Outcome.accept, room1,
           [Event.routerProduce transportId kind] ++ fanout ++ audio)
    | ProtooReq.closeProducer producerId =>
      if !peer.data.joined then (Outcome.rejectErr "Peer not yet joined", room, [])
      else
        match peer.data.producers.find? (fun pr => pr.id = producerId) with
        | none => (Outcome.rejectErr "producer not found", room, [])
        | some _ =>
          (Outcome.accept,
           updatePeer room peerId fun d =>
             { d with producers := d.producers.filter fun pr => pr.id ≠ producerId },
           [Event.producerClose producerId])
    | ProtooReq.pauseProducer producerId =>
      if !peer.data.joined then (Outcome.rejectErr "Peer not yet joined", room, [])
      else
        match peer.data.producers.find? (fun pr => pr.id = producerId) with
        | none => (Outcome.rejectErr "producer not found", room, [])
        | some _ => (Outcome.accept, room, [])
    | ProtooReq.resumeProducer producerId =>
      if !peer.data.joined then (Outcome.rejectErr "Peer not yet joined", room, [])
      else
        match peer.data.producers.find? (fun pr => pr.id = producerId) with
        | none => (Outcome.rejectErr "producer not found", room, [])
        | some _ => (Outcome.accept, room, [])
    | ProtooReq.pauseConsumer consumerId =>
      if !peer.data.joined then (Outcome.rejectErr "Peer not yet joined", room, [])
      else if peer.data.consumers.contains consumerId then (Outcome.accept, room, [])
      else (Outcome.rejectErr "consumer not found", room, [])
    | ProtooReq.resumeConsumer consumerId =>
      if !peer.data.joined then (Outcome.rejectErr "Peer not yet joined", room, [])
      else if peer.data.consumers.contains consumerId then (Outcome.accept, room, [])
      else (Outcome.rejectErr "consumer not found", room, [])
    | ProtooReq.setConsumerPreferredLayers consumerId =>
      if !peer.data.joined then (Outcome.rejectErr "Peer not yet joined", room, [])
      else if peer.data.consumers.contains consumerId then (Outcome.accept, room, [])
      else (Outcome.rejectErr "consumer not found", room, [])
    | ProtooReq.setConsumerPriority consumerId =>
      if !peer.data.joined then (Outcome.rejectErr "Peer not yet joined", room, [])
      else if peer.data.consumers.contains consumerId then (Outcome.accept, room, [])
      else (Outcome.rejectErr "consumer not found", room, [])
    | ProtooReq.requestConsumerKeyFrame consumerId =>
      if !peer.data.joined then (Outcome.rejectErr "Peer not yet joined", room, [])
      else if peer.data.consumers.contains consumerId then (Outcome.accept, room, [])
      else (Outcome.rejectErr "consumer not found", room, [])
    | ProtooReq.produceData transportId label newDataProducerId =>
      if !peer.data.joined then (Outcome.rejectErr "Peer not yet joined", room, [])
      else
        match peer.data.transports.find? (fun t => t.id = transportId) with
        | none => (Outcome.rejectErr "transport not found", room, [])
        | some _ =>
          let room1 := updatePeer room peerId fun d =>
            { d with dataProducers := d.dataProducers ++ [{ id := newDataProducerId, label := label }] }
          let tail :=
            if label = "chat" then
              (getJoinedPeers room1 (some peerId)).map fun op =>
                Event.dataConsumerCall op.id (some peerId) newDataProducerId label
            else if label = "bot" then [Event.botHandleDataProducer newDataProducerId]
            else []
          (Outcome.accept, room1, [Event.routerProduceData transportId label] ++ tail)
    | ProtooReq.changeDisplayName displayName =>
      if !peer.data.joined then (Outcome.rejectErr "Peer not yet joined", room, [])
      else
        let room1 := updatePeer room peerId fun d => { d with displayName := some displayName }
        (Outcome.accept, room1,
         (getJoinedPeers room1 (some peerId)).map fun op =>
           Event.notifyOther op.id "peerDisplayNameChanged")
    | ProtooReq.mixerDataChanged =>
      if !peer.data.joined then (Outcome.rejectErr "Peer not yet joined", room, [])
      else
        (Outcome.accept, room,
         (getJoinedPeers room (some peerId)).map fun op =>
           Event.notifyOther op.id "mixerDataChanged")
    | ProtooReq.getTransportStats transportId =>
      match peer.data.transports.find? (fun t => t.id = transportId) with
      | none => (Outcome.rejectErr "transport not found", room, [])
      | some _ => (Outcome.accept, room, [])
    | ProtooReq.getProducerStats producerId =>
      match peer.data.producers.find? (fun pr => pr.id = producerId) with
      | none => (Outcome.rejectErr "producer not found", room, [])
      | some _ => (Outcome.accept, room, [])
    | ProtooReq.getConsumerStats consumerId =>
      if peer.data.consumers.contains consumerId then (Outcome.accept, room, [])
      else (Outcome.rejectErr "consumer not found", room, [])
    | ProtooReq.getDataProducerStats dataProducerId =>
      match peer.data.dataProducers.find? (fun dp => dp.id = dataProducerId) with
      | none => (Outcome.rejectErr "dataProducer not found", room, [])
      | some _ => (Outcome.accept, room, [])
    | ProtooReq.getDataConsumerStats dataConsumerId =>
      if peer.data.dataConsumers.contains dataConsumerId then (Outcome.accept, room, [])
      else (Outcome.rejectErr "dataConsumer not found", room, [])
    | ProtooReq.applyNetworkThrottle secret throttleOk =>
      if throttleSecretRejected secret envSecret then
        (Outcome.rejectCode 403 "operation NOT allowed", room, [])
      else if throttleOk then (Outcome.accept, room, [Event.throttleStart])
      else (Outcome.rejectCode 500 "throttle start failed", room, [Event.throttleStart])
    | ProtooReq.resetNetworkThrottle secret throttleOk =>
      if throttleSecretRejected secret envSecret then
        (Outcome.rejectCode 403 "operation NOT allowed", room, [])
      else if throttleOk then (Outcome.accept, room, [Event.throttleStop])
      else (Outcome.rejectCode 500 "throttle stop failed", room, [Event.throttleStop])
    | ProtooReq.unknownMethod m =>
      (Outcome.rejectCode 500 ("unknown request.method " ++ m), room, [])

/-! ## Room lifecycle -/

/-- `Room.close`: mark closed, close the protoo room, the router and the
bot, emit the `close` event consumed by the registry, and stop the
network throttle if it was applied. -/
def roomClose (room : RoomM) : RoomM × List Event :=
  ({ room with closed := true },
   [Event.protooRoomClose, Event.routerClose, Event.botClose,
    Event.emitRoomClosed room.roomId]
     ++ (if room.networkThrottled then [Event.throttleStop] else []))

/-- The room with the given protoo peer removed (what
`protooRoom.peers` looks like once protoo has dropped a closed peer). -/
def removePeer (room : RoomM) (peerId : String) : RoomM :=
  { room with peers := room.peers.filter fun q => q.id ≠ peerId }

/-- The protoo peer `close` handler registered by
`handleProtooConnection`.  Protoo removes the closed peer from
`protooRoom.peers` before the handler observes it, which is why
`this._protooRoom.peers.length === 0` can hold for the last peer; the
handler then: if the peer had joined, notifies every other joined peer
`peerClosed`; closes every transport the peer owned; and closes the Room
when no peers remain. -/
def handlePeerClose (room : RoomM) (peerId : String) : RoomM × List Event :=
  if room.closed then (room, [])
  else
    match findPeer room peerId with
    | none => (room, [])
    | some p =>
      let es :=
        (if p.data.joined then
          (getJoinedPeers (removePeer room peerId) (some peerId)).map fun op =>
            Event.notifyPeerClosed op.id peerId
         else [])
        ++ p.data.transports.map fun t => Event.transportClose t.id
      if (removePeer room peerId).peers.length = 0 then
        ((roomClose (removePeer room peerId)).1,
         es ++ (roomClose (removePeer room peerId)).2)
      else (removePeer room peerId, es)

/-- Register a fresh protoo peer with an initial data bag
(`protooRoom.createPeer` fails on a closed room, in which case nothing
is registered). -/
def connectFreshPeer (room : RoomM) (peerId : String) : RoomM :=
  if room.closed then room
  else { room with peers := room.peers ++ [{ id := peerId, data := initialPeerData }] }

/-- `handleProtooConnection`: if a peer with the same id already exists
it is closed first (last-writer-wins), running its `close` handler; the
new protoo peer is then created with a fresh data bag. -/
def handleProtooConnection (room : RoomM) (peerId : String) : RoomM × List Event :=
  if (findPeer room peerId).isSome then
    (connectFreshPeer (handlePeerClose room peerId).1 peerId,
     (handlePeerClose room peerId).2)
  else (connectFreshPeer room peerId, [])

/-- The registry coupling of the peer `close` handler: the room entry is
removed from the registry exactly when the handler drives the Room to
`closed` (the Room's `close` event). -/
def systemPeerClose (reg : List (String × RoomM)) (roomId peerId : String) :
    List (String × RoomM) × List Event :=
  match (reg.find? fun e => e.1 = roomId).map (fun e => e.2) with
  | none => (reg, [])
  | some room =>
    let step := handlePeerClose room peerId
    if !room.closed && step.1.closed then
      (reg.filter (fun e => e.1 ≠ roomId), step.2)
    else
      (reg.map fun e => if e.1 = roomId then (e.1, step.1) else e, step.2)

/-! ## Reachable room states

The handlers above are driven by an operation stream: connection
admission, protoo requests, disconnects, the (asynchronously executed)
consumer-graph-builder bodies, and the broadcaster administration calls.
`roomStep` applies one operation to the room state; reachable states are
folds of `roomStep` from `initialRoom`. -/

/-- Apply the `_createConsumer` body to the peer it targets. -/
def applyCreateConsumer (room : RoomM) (env : ConsumerEnv)
    (consumerPeerId producerPeerId : String) (producer : ProducerM) : RoomM :=
  match findPeer room consumerPeerId with
  | none => room
  | some p => updatePeer room consumerPeerId fun _ =>
      (createConsumer env p producerPeerId producer).1

/-- Apply the `_createDataConsumer` body to the peer it targets. -/
def applyCreateDataConsumer (room : RoomM) (consumeDataResult : Option String)
    (dataConsumerPeerId : String) (dataProducerPeer : Option String)
    (dataProducer : DataProducerM) : RoomM :=
  match findPeer room dataConsumerPeerId with
  | none => room
  | some p => updatePeer room dataConsumerPeerId fun _ =>
      (createDataConsumer consumeDataResult p dataProducerPeer dataProducer).1

inductive RoomOp
  | connect (peerId : String)
  | request (envSecret : Option String) (peerId : String) (req : ProtooReq)
  | peerClose (peerId : String)
  | applyConsumer (env : ConsumerEnv) (consumerPeerId producerPeerId : String)
      (producer : ProducerM)
  | applyDataConsumer (consumeDataResult : Option String) (dataConsumerPeerId : String)
      (dataProducerPeer : Option String) (dataProducer : DataProducerM)
  | bCreate (id displayName deviceName : String) (rtpCapabilities : Option String)
  | bDelete (broadcasterId : String)
  | bCreateTransport (broadcasterId typ newTransportId : String)
  | bProduce (broadcasterId transportId kind newProducerId : String)
  | bConsume (broadcasterId transportId producerId : String) (newConsumerId : Option String)
  | bProduceData (broadcasterId transportId label newDataProducerId : String)

/-- `deleteBroadcaster`: close its transports, drop it from the map and
notify the joined peers `peerClosed`. -/
def deleteBroadcaster (room : RoomM) (broadcasterId : String) :
    Except String Unit × RoomM × List Event :=
  match findBroadcaster room broadcasterId with
  | none => (Except.error "broadcaster does not exist", room, [])
  | some b =>
    (Except.ok (),
     { room with broadcasters := room.broadcasters.filter fun b' => b'.id ≠ broadcasterId },
     (b.transports.map fun t => Event.transportClose t.id)
       ++ (getJoinedPeers room none).map fun p => Event.notifyPeerClosed p.id broadcasterId)

def roomStep (room : RoomM) : RoomOp → RoomM
  | RoomOp.connect peerId => (handleProtooConnection room peerId).1
  | RoomOp.request envSecret peerId req => (handleProtooRequest envSecret room peerId req).2.1
  | RoomOp.peerClose peerId => (handlePeerClose room peerId).1
  | RoomOp.applyConsumer env cpid ppid producer => applyCreateConsumer room env cpid ppid producer
  | RoomOp.applyDataConsumer res cpid ppid dp => applyCreateDataConsumer room res cpid ppid dp
  | RoomOp.bCreate id dn dev caps => (createBroadcaster room id dn dev caps (fun _ => true)).2.1
  | RoomOp.bDelete bid => (deleteBroadcaster room bid).2.1
  | RoomOp.bCreateTransport bid typ tid => (createBroadcasterTransport room bid typ tid).2.1
  | RoomOp.bProduce bid tid kind pid => (createBroadcasterProducer room bid tid kind pid).2.1
  | RoomOp.bConsume bid tid pid cid => (createBroadcasterConsumer room bid tid pid cid).2.1
  | RoomOp.bProduceData bid tid lbl dpid => (createBroadcasterDataProducer room bid tid lbl dpid).2.1

def runRoom (room : RoomM) (ops : List RoomOp) : RoomM :=
  ops.foldl roomStep room

/-- Per-peer part of the pre-join invariant: a session that has not
joined owns no producers and no data producers. -/
def PreJoinEmpty (d : PeerData) : Prop :=
  d.joined = false → d.producers = [] ∧ d.dataProducers = []

/-- Room invariant: protoo peer ids are unique (protoo enforces this; the
admission path closes a duplicate first) and every non-joined session has
empty `producers` and `dataProducers`. -/
def RoomInv (room : RoomM) : Prop :=
  (room.peers.map fun p => p.id).Nodup ∧ ∀ p ∈ room.peers, PreJoinEmpty p.data

/-! ## Event-trace extractors -/

/-- The targets of `peerClosed` notifications about a given peer. -/
def peerClosedTargets (closedPeerId : String) (es : List Event) : List String :=
  es.filterMap fun e =>
    match e with
    | Event.notifyPeerClosed toPeer c => if c = closedPeerId then some toPeer else none
    | _ => none

/-- The targets of `newPeer` notifications about a given peer, with the
announced display name and device. -/
def newPeerTargets (newPeerId : String) (es : List Event) : List (String × String × String) :=
  es.filterMap fun e =>
    match e with
    | Event.notifyNewPeer toPeer i dn dev => if i = newPeerId then some (toPeer, dn, dev) else none
    | _ => none

/-- The consuming peers of `_createConsumer` invocations for a given
producer. -/
def consumerCallTargets (producerId : String) (es : List Event) : List String :=
  es.filterMap fun e =>
    match e with
    | Event.consumerCall cp _ pid => if pid = producerId then some cp else none
    | _ => none

/-- The labels passed to generic (non-bot) `_createDataConsumer`
invocations, i.e. those with a producing peer. -/
def genericDataConsumerLabels (es : List Event) : List String :=
  es.filterMap fun e =>
    match e with
    | Event.dataConsumerCall _ (some _) _ lbl => some lbl
    | _ => none

/-- The data producer ids of `_createDataConsumer` invocations with a
`null` producing peer (the dedicated bot attachment path). -/
def botAttachCalls (es : List Event) : List String :=
  es.filterMap fun e =>
    match e with
    | Event.dataConsumerCall _ none dpid _ => some dpid
    | _ => none

/-- The consuming peers of `_createDataConsumer` invocations for a given
data producer. -/
def dataConsumerCallTargets (dataProducerId : String) (es : List Event) : List String :=
  es.filterMap fun e =>
    match e with
    | Event.dataConsumerCall cp _ dpid _ => if dpid = dataProducerId then some cp else none
    | _ => none

/-! ## Theorems -/

/-- C5: for every new producer and candidate receiving peer,
`_createConsumer` creates no consumer when the peer has not declared
receive `rtpCapabilities` or when the router's `canConsume` answers
false: the peer's state is returned unchanged and no engine call, protoo
request or notification is made. -/
theorem createConsumer_skips_ineligible (env : ConsumerEnv) (consumerPeer : PeerM)
    (producerPeerId : String) (producer : ProducerM)
    (h : consumerPeer.data.rtpCapabilities = none ∨ env.canConsume = false) :
    createConsumer env consumerPeer producerPeerId producer = (consumerPeer.data, []) := by
  unfold createConsumer
  rcases h with h | h <;> simp [h]

theorem createConsumer_skips_ineligible_witness :
    ({ joined := true, displayName := some "alice", device := some "d",
       rtpCapabilities := none, sctpCapabilities := none, transports := [],
       producers := [], consumers := [], dataProducers := [], dataConsumers := [] } :
        PeerData).rtpCapabilities = none ∧
    createConsumer { canConsume := true, consumeResult := some "c1", ackOk := true }
      { id := "alice",
        data := { joined := true, displayName := some "alice", device := some "d",
                  rtpCapabilities := none, sctpCapabilities := none, transports := [],
                  producers := [], consumers := [], dataProducers := [], dataConsumers := [] } }
      "bob" { id := "p1", kind := "audio", appDataPeerId := some "bob" }
      = ({ joined := true, displayName := some "alice", device := some "d",
           rtpCapabilities := none, sctpCapabilities := none, transports := [],
           producers := [], consumers := [], dataProducers := [], dataConsumers := [] }, []) :=
  ⟨rfl, createConsumer_skips_ineligible _ _ _ _ (Or.inl rfl)⟩

/-- C3: a `join` request from a session whose `joined` flag is already
set rejects with the state error `Peer already joined` and leaves the
room — and hence the session's `joined` flag, display name, device,
capabilities and all five owned collections — unchanged, with no side
effect. -/
theorem join_rejected_when_already_joined (envSecret : Option String) (room : RoomM)
    (peerId displayName device : String) (rtpCaps sctpCaps : Option String) (p : PeerM)
    (hp : findPeer room peerId = some p) (hj : p.data.joined = true) :
    handleProtooRequest envSecret room peerId
        (ProtooReq.join displayName device rtpCaps sctpCaps)
      = (Outcome.rejectErr "Peer already joined", room, []) := by
  unfold handleProtooRequest
  simp [hp, hj]

theorem join_rejected_when_already_joined_witness :
    findPeer
        { roomId := "r", closed := false,
          peers := [{ id := "alice", data := { initialPeerData with joined := true } }],
          broadcasters := [], bot := { id := "bdp", label := "bot" },
          networkThrottled := false }
        "alice"
      = some { id := "alice", data := { initialPeerData with joined := true } } ∧
    handleProtooRequest none
        { roomId := "r", closed := false,
          peers := [{ id := "alice", data := { initialPeerData with joined := true } }],
          broadcasters := [], bot := { id := "bdp", label := "bot" },
          networkThrottled := false }
        "alice" (ProtooReq.join "Alice" "web" none none)
      = (Outcome.rejectErr "Peer already joined",
         { roomId := "r", closed := false,
           peers := [{ id := "alice", data := { initialPeerData with joined := true } }],
           broadcasters := [], bot := { id := "bdp", label := "bot" },
           networkThrottled := false }, []) :=
  ⟨by decide,
   join_rejected_when_already_joined none _ "alice" "Alice" "web" none none
     { id := "alice", data := { initialPeerData with joined := true } }
     (by decide) rfl⟩

/-- C9: an `applyNetworkThrottle` request whose `secret` field is missing
or differs from the configured shared secret rejects with code 403 and
performs no side effect: no `throttle.start` call appears in the trace
and the room is unchanged. -/
theorem applyNetworkThrottle_forbidden (envSecret : Option String) (room : RoomM)
    (peerId : String) (secret : Option String) (throttleOk : Bool) (p : PeerM)
    (hp : findPeer room peerId = some p)
    (h : secret = none ∨ secret ≠ envSecret) :
    handleProtooRequest envSecret room peerId
        (ProtooReq.applyNetworkThrottle secret throttleOk)
      = (Outcome.rejectCode 403 "operation NOT allowed", room, []) := by
  have hrej : throttleSecretRejected secret envSecret = true := by
    rcases secret with _ | s
    · rfl
    · rcases h with h | h
      · exact absurd h (by simp)
      · unfold throttleSecretRejected
        simp only [Bool.or_eq_true, decide_eq_true_eq]
        right
        intro he
        exact h (by rw [he])
  unfold handleProtooRequest
  simp [hp, hrej]

theorem applyNetworkThrottle_forbidden_witness :
    findPeer
        { roomId := "r", closed := false,
          peers := [{ id := "alice", data := initialPeerData }],
          broadcasters := [], bot := { id := "bdp", label := "bot" },
          networkThrottled := false }
        "alice"
      = some { id := "alice", data := initialPeerData } ∧
    (some "wrong" : Option String) ≠ some "s3cret" ∧
    handleProtooRequest (some "s3cret")
        { roomId := "r", closed := false,
          peers := [{ id := "alice", data := initialPeerData }],
          broadcasters := [], bot := { id := "bdp", label := "bot" },
          networkThrottled := false }
        "alice" (ProtooReq.applyNetworkThrottle (some "wrong") true)
      = (Outcome.rejectCode 403 "operation NOT allowed",
         { roomId := "r", closed := false,
           peers := [{ id := "alice", data := initialPeerData }],
           broadcasters := [], bot := { id := "bdp", label := "bot" },
           networkThrottled := false }, []) :=
  ⟨by decide, by decide,
   applyNetworkThrottle_forbidden (some "s3cret") _ "alice" (some "wrong") true
     { id := "alice", data := initialPeerData }
     (by decide) (Or.inr (by decide))⟩

/-- C10: `createBroadcasterConsumer` needs only an existing broadcaster
that has supplied `rtpCapabilities` and owns the referenced transport;
it then creates the consumer unpaused (`transport.consume` without a
`paused` flag) and returns its parameters directly — its trace carries
no `newConsumer` request and no resume call, unlike the peer fan-out
path — while a missing broadcaster, missing capabilities or foreign
transport each reject. -/
theorem createBroadcasterConsumer_direct_unpaused (room : RoomM)
    (broadcasterId transportId producerId cid : String) :
    (∀ b, findBroadcaster room broadcasterId = some b →
      b.rtpCapabilities.isSome = true →
      ((b.transports.find? fun t => t.id = transportId).isSome = true →
        (createBroadcasterConsumer room broadcasterId transportId producerId (some cid)).1
            = Except.ok (cid, producerId) ∧
        (createBroadcasterConsumer room broadcasterId transportId producerId (some cid)).2.2
            = [Event.routerConsume producerId false])) ∧
    (findBroadcaster room broadcasterId = none →
      (createBroadcasterConsumer room broadcasterId transportId producerId (some cid)).1
        = Except.error "broadcaster does not exist") ∧
    (∀ b, findBroadcaster room broadcasterId = some b → b.rtpCapabilities = none →
      (createBroadcasterConsumer room broadcasterId transportId producerId (some cid)).1
        = Except.error "broadcaster does not have rtpCapabilities") ∧
    (∀ b, findBroadcaster room broadcasterId = some b →
      b.transports.find? (fun t => t.id = transportId) = none →
      b.rtpCapabilities.isSome = true →
      (createBroadcasterConsumer room broadcasterId transportId producerId (some cid)).1
        = Except.error "transport does not exist") ∧
    (∀ x b', Event.routerConsume x b' ∈
        (createBroadcasterConsumer room broadcasterId transportId producerId (some cid)).2.2 →
      b' = false) ∧
    (∀ c, Event.consumerResume c ∉
      (createBroadcasterConsumer room broadcasterId transportId producerId (some cid)).2.2) ∧
    (∀ a b' c d, Event.newConsumerRequest a b' c d ∉
      (createBroadcasterConsumer room broadcasterId transportId producerId (some cid)).2.2) := by
  have htrace :
      (createBroadcasterConsumer room broadcasterId transportId producerId (some cid)).2.2 = [] ∨
      (createBroadcasterConsumer room broadcasterId transportId producerId (some cid)).2.2
        = [Event.routerConsume producerId false] := by
    unfold createBroadcasterConsumer
    cases findBroadcaster room broadcasterId with
    | none => exact Or.inl rfl
    | some b =>
      by_cases hc : b.rtpCapabilities.isNone = true
      · simp [hc]
      · cases ht : b.transports.find? (fun t => t.id = transportId) with
        | none => simp [hc, ht]
        | some t => simp [hc, ht]
  refine ⟨?_, ?_, ?_, ?_, ?_, ?_, ?_⟩
  · intro b hb h1 h2
    obtain ⟨caps, hcaps⟩ := Option.isSome_iff_exists.mp h1
    obtain ⟨t, ht⟩ := Option.isSome_iff_exists.mp h2
    unfold createBroadcasterConsumer
    simp [hb, hcaps, ht]
  · intro hb
    unfold createBroadcasterConsumer
    simp [hb]
  · intro b hb hc
    unfold createBroadcasterConsumer
    simp [hb, hc]
  · intro b hb ht h1
    obtain ⟨caps, hcaps⟩ := Option.isSome_iff_exists.mp h1
    unfold createBroadcasterConsumer
    simp [hb, hcaps, ht]
  · intro x b' hmem
    rcases htrace with h | h <;> rw [h] at hmem <;> simp at hmem
    exact hmem.2
  · intro c hmem
    rcases htrace with h | h <;> rw [h] at hmem <;> simp at hmem
  · intro a b' c d hmem
    rcases htrace with h | h <;> rw [h] at hmem <;> simp at hmem

theorem createBroadcasterConsumer_direct_unpaused_witness :
    findBroadcaster
        { roomId := "r", closed := false, peers := [],
          broadcasters := [{ id := "b1", displayName := "B", deviceName := "cam",
                             rtpCapabilities := some "caps",
                             transports := [{ id := "t1", consuming := false }],
                             producers := [], consumers := [], dataProducers := [],
                             dataConsumers := [] }],
          bot := { id := "bdp", label := "bot" }, networkThrottled := false }
        "b1"
      = some { id := "b1", displayName := "B", deviceName := "cam",
               rtpCapabilities := some "caps",
               transports := [{ id := "t1", consuming := false }],
               producers := [], consumers := [], dataProducers := [],
               dataConsumers := [] } ∧
    (createBroadcasterConsumer
        { roomId := "r", closed := false, peers := [],
          broadcasters := [{ id := "b1", displayName := "B", deviceName := "cam",
                             rtpCapabilities := some "caps",
                             transports := [{ id := "t1", consuming := false }],
                             producers := [], consumers := [], dataProducers := [],
                             dataConsumers := [] }],
          bot := { id := "bdp", label := "bot" }, networkThrottled := false }
        "b1" "t1" "p1" (some "c1")).1
      = Except.ok ("c1", "p1") ∧
    (createBroadcasterConsumer
        { roomId := "r", closed := false, peers := [],
          broadcasters := [{ id := "b1", displayName := "B", deviceName := "cam",
                             rtpCapabilities := some "caps",
                             transports := [{ id := "t1", consuming := false }],
                             producers := [], consumers := [], dataProducers := [],
                             dataConsumers := [] }],
          bot := { id := "bdp", label := "bot" }, networkThrottled := false }
        "b1" "t1" "p1" (some "c1")).2.2
      = [Event.routerConsume "p1" false] := by
  refine ⟨by decide, ?_⟩
  have h := createBroadcasterConsumer_direct_unpaused
    { roomId := "r", closed := false, peers := [],
      broadcasters := [{ id := "b1", displayName := "B", deviceName := "cam",
                         rtpCapabilities := some "caps",
                         transports := [{ id := "t1", consuming := false }],
                         producers := [], consumers := [], dataProducers := [],
                         dataConsumers := [] }],
      bot := { id := "bdp", label := "bot" }, networkThrottled := false }
    "b1" "t1" "p1" "c1"
  exact h.1
    { id := "b1", displayName := "B", deviceName := "cam",
      rtpCapabilities := some "caps",
      transports := [{ id := "t1", consuming := false }],
      producers := [], consumers := [], dataProducers := [], dataConsumers := [] }
    (by decide) (by decide) (by decide)

/-! ### Helper lemmas about the room combinators -/

theorem updatePeer_ids (room : RoomM) (pid : String) (f : PeerData → PeerData) :
    (updatePeer room pid f).peers.map (fun p => p.id) = room.peers.map fun p => p.id := by
  unfold updatePeer
  simp only [List.map_map]
  apply List.map_congr_left
  intro p _
  by_cases h : p.id = pid <;> simp [h]

theorem mem_updatePeer_of_ne (room : RoomM) (pid : String) (f : PeerData → PeerData)
    (q : PeerM) (hq : q ∈ room.peers) (hne : q.id ≠ pid) :
    q ∈ (updatePeer room pid f).peers := by
  unfold updatePeer
  refine List.mem_map.mpr ⟨q, hq, ?_⟩
  simp [hne]

theorem mem_getJoinedPeers (room : RoomM) (ex : Option String) (q : PeerM)
    (hq : q ∈ room.peers) (hj : q.data.joined = true) (hex : ex ≠ some q.id) :
    q ∈ getJoinedPeers room ex := by
  unfold getJoinedPeers
  refine List.mem_filter.mpr ⟨hq, ?_⟩
  simp [hj, hex]

theorem getJoinedPeers_ids_sublist (room : RoomM) (ex : Option String) :
    ((getJoinedPeers room ex).map fun p => p.id).Sublist (room.peers.map fun p => p.id) :=
  (List.filter_sublist _).map _

/-- The full trace case analysis of `_createConsumer`: it skips silently,
stops after a failed `consume`, stops after an unacknowledged
`newConsumer` request, or completes the paused-create / request /
acknowledge / resume sequence. -/
theorem createConsumer_trace_cases (env : ConsumerEnv) (p : PeerM) (ppid : String)
    (pr : ProducerM) :
    (createConsumer env p ppid pr).2 = [] ∨
    (env.consumeResult = none ∧
      (createConsumer env p ppid pr).2 = [Event.routerConsume pr.id true]) ∨
    (∃ cid, env.consumeResult = some cid ∧ env.ackOk = false ∧
      (createConsumer env p ppid pr).2 =
        [Event.routerConsume pr.id true,
         Event.newConsumerRequest p.id ppid pr.id cid]) ∨
    (∃ cid, env.consumeResult = some cid ∧ env.ackOk = true ∧
      (createConsumer env p ppid pr).2 =
        [Event.routerConsume pr.id true,
         Event.newConsumerRequest p.id ppid pr.id cid,
         Event.consumerResume cid,
         Event.notifyOther p.id "consumerScore"]) := by
  unfold createConsumer
  by_cases h1 : (p.data.rtpCapabilities.isNone || !env.canConsume) = true
  · exact Or.inl (by simp [h1])
  · cases ht : p.data.transports.find? (fun t => t.consuming) with
    | none => exact Or.inl (by simp [h1, ht])
    | some t =>
      cases hc : env.consumeResult with
      | none => exact Or.inr (Or.inl ⟨rfl, by simp [h1, ht, hc]⟩)
      | some cid =>
        by_cases ha : env.ackOk = true
        · exact Or.inr (Or.inr (Or.inr ⟨cid, rfl, ha, by simp [h1, ht, hc, ha]⟩))
        · exact Or.inr (Or.inr (Or.inl ⟨cid, rfl, Bool.not_eq_true _ ▸ ha,
            by simp [h1, ht, hc, ha]⟩))

/-- Number of `newConsumer` protoo requests in a trace. -/
def newConsumerRequestCount (es : List Event) : Nat :=
  (es.filter fun e =>
    match e with
    | Event.newConsumerRequest _ _ _ _ => true
    | _ => false).length

theorem consumerCallTargets_map (pid x : String) (l : List PeerM) :
    consumerCallTargets pid (l.map fun op => Event.consumerCall op.id x pid)
      = l.map fun op => op.id := by
  induction l with
  | nil => rfl
  | cons a l ih =>
    simp only [List.map_cons, consumerCallTargets, List.filterMap_cons] at ih ⊢
    simp [ih]

/-- The trace of a successful `produce`: the engine `produce` call, one
`_createConsumer` invocation per other joined peer, and the audio
observer registration for audio producers. -/
theorem handleProduce_events (envSecret : Option String) (room : RoomM)
    (peerId tid kind newPid : String) (p : PeerM)
    (hp : findPeer room peerId = some p) (hj : p.data.joined = true)
    (t : TransportM) (ht : p.data.transports.find? (fun tr => tr.id = tid) = some t) :
    (handleProtooRequest envSecret room peerId (ProtooReq.produce tid kind newPid)).2.2
      = [Event.routerProduce tid kind]
        ++ ((getJoinedPeers
              (updatePeer room peerId fun d =>
                { d with producers := d.producers
                    ++ [{ id := newPid, kind := kind, appDataPeerId := some peerId }] })
              (some peerId)).map fun op => Event.consumerCall op.id peerId newPid)
        ++ (if kind = "audio" then [Event.addAudioProducer newPid] else []) := by
  unfold handleProtooRequest
  simp [hp, hj, ht]

theorem consumerCallTargets_append (pid : String) (a b : List Event) :
    consumerCallTargets pid (a ++ b)
      = consumerCallTargets pid a ++ consumerCallTargets pid b := by
  simp [consumerCallTargets, List.filterMap_append]

/-- C2: on the peer fan-out path every server-side consumer is created
with `paused: true`; a single `_createConsumer` invocation sends at most
one `newConsumer` request; `consumer.resume()` happens only after the
receiver positively acknowledged that request (the trace is then exactly
create-paused, request, resume, score); if consumer creation or the
acknowledgment fails the consumer is never resumed and nothing is
retried; and a successful `produce` issues exactly one `_createConsumer`
invocation per other joined peer for the new producer. -/
theorem consumer_fanout_paused_resume_handshake :
    (∀ (env : ConsumerEnv) (p : PeerM) (ppid : String) (pr : ProducerM)
        (pid : String) (b : Bool),
      Event.routerConsume pid b ∈ (createConsumer env p ppid pr).2 → b = true) ∧
    (∀ (env : ConsumerEnv) (p : PeerM) (ppid : String) (pr : ProducerM),
      newConsumerRequestCount (createConsumer env p ppid pr).2 ≤ 1) ∧
    (∀ (env : ConsumerEnv) (p : PeerM) (ppid : String) (pr : ProducerM) (cid : String),
      Event.consumerResume cid ∈ (createConsumer env p ppid pr).2 →
      env.ackOk = true ∧ env.consumeResult = some cid ∧
      (createConsumer env p ppid pr).2 =
        [Event.routerConsume pr.id true,
         Event.newConsumerRequest p.id ppid pr.id cid,
         Event.consumerResume cid,
         Event.notifyOther p.id "consumerScore"]) ∧
    (∀ (env : ConsumerEnv) (p : PeerM) (ppid : String) (pr : ProducerM) (cid : String),
      env.consumeResult = none ∨ env.ackOk = false →
      Event.consumerResume cid ∉ (createConsumer env p ppid pr).2) ∧
    (∀ (envSecret : Option String) (room : RoomM) (peerId tid kind newPid : String)
        (p : PeerM) (t : TransportM),
      ((room.peers.map fun r => r.id).Nodup) →
      findPeer room peerId = some p →
      p.data.joined = true →
      p.data.transports.find? (fun tr => tr.id = tid) = some t →
      ∀ q ∈ room.peers, q.id ≠ peerId → q.data.joined = true →
        (consumerCallTargets newPid
          (handleProtooRequest envSecret room peerId
            (ProtooReq.produce tid kind newPid)).2.2).count q.id = 1) := by
  refine ⟨?_, ?_, ?_, ?_, ?_⟩
  · intro env p ppid pr pid b hmem
    rcases createConsumer_trace_cases env p ppid pr with h | ⟨_, h⟩ | ⟨cid, _, _, h⟩ | ⟨cid, _, _, h⟩ <;>
      rw [h] at hmem <;> simp at hmem <;> tauto
  · intro env p ppid pr
    rcases createConsumer_trace_cases env p ppid pr with h | ⟨_, h⟩ | ⟨cid, _, _, h⟩ | ⟨cid, _, _, h⟩ <;>
      rw [newConsumerRequestCount, h] <;> simp
  · intro env p ppid pr cid hmem
    rcases createConsumer_trace_cases env p ppid pr with h | ⟨_, h⟩ | ⟨cid', _, _, h⟩ | ⟨cid', hc, ha, h⟩ <;>
      rw [h] at hmem <;> simp at hmem
    subst hmem
    exact ⟨ha, hc, h⟩
  · intro env p ppid pr cid hfail hmem
    rcases createConsumer_trace_cases env p ppid pr with h | ⟨_, h⟩ | ⟨cid', _, _, h⟩ | ⟨cid', hc, ha, h⟩ <;>
      rw [h] at hmem <;> simp at hmem
    subst hmem
    rcases hfail with hfail | hfail
    · rw [hc] at hfail; exact Option.noConfusion hfail
    · rw [ha] at hfail; exact Bool.noConfusion hfail
  · intro envSecret room peerId tid kind newPid p t hnodup hp hj ht q hq hqne hqj
    rw [handleProduce_events envSecret room peerId tid kind newPid p hp hj t ht]
    rw [consumerCallTargets_append, consumerCallTargets_append]
    have h1 : consumerCallTargets newPid [Event.routerProduce tid kind] = [] := rfl
    have h3 : consumerCallTargets newPid
        (if kind = "audio" then [Event.addAudioProducer newPid] else []) = [] := by
      by_cases hk : kind = "audio" <;> simp [hk, consumerCallTargets]
    rw [h1, h3, consumerCallTargets_map]
    simp only [List.nil_append, List.append_nil]
    have hmem : q ∈ getJoinedPeers
        (updatePeer room peerId fun d =>
          { d with producers := d.producers
              ++ [{ id := newPid, kind := kind, appDataPeerId := some peerId }] })
        (some peerId) := by
      refine mem_getJoinedPeers _ _ q ?_ hqj ?_
      · exact mem_updatePeer_of_ne room peerId _ q hq hqne
      · simp
        exact fun h => hqne h.symm
    have hnodup' : ((getJoinedPeers
        (updatePeer room peerId fun d =>
          { d with producers := d.producers
              ++ [{ id := newPid, kind := kind, appDataPeerId := some peerId }] })
        (some peerId)).map fun r => r.id).Nodup := by
      refine (getJoinedPeers_ids_sublist _ _).nodup ?_
      rw [updatePeer_ids]
      exact hnodup
    exact List.count_eq_one_of_mem hnodup' (List.mem_map.mpr ⟨q, hmem, rfl⟩)

theorem consumer_fanout_paused_resume_handshake_witness :
    (consumerCallTargets "p1"
      (handleProtooRequest none
        { roomId := "r", closed := false,
          peers :=
            [{ id := "alice",
               data := { joined := true, displayName := some "A", device := some "w",
                         rtpCapabilities := some "caps", sctpCapabilities := some "sc",
                         transports := [{ id := "t1", consuming := false }],
                         producers := [], consumers := [], dataProducers := [],
                         dataConsumers := [] } },
             { id := "bob",
               data := { joined := true, displayName := some "B", device := some "w",
                         rtpCapabilities := some "caps", sctpCapabilities := some "sc",
                         transports := [{ id := "t2", consuming := true }],
                         producers := [], consumers := [], dataProducers := [],
                         dataConsumers := [] } }],
          broadcasters := [], bot := { id := "bdp", label := "bot" },
          networkThrottled := false }
        "alice" (ProtooReq.produce "t1" "audio" "p1")).2.2).count "bob" = 1 :=
  consumer_fanout_paused_resume_handshake.2.2.2.2 none
    { roomId := "r", closed := false,
      peers :=
        [{ id := "alice",
           data := { joined := true, displayName := some "A", device := some "w",
                     rtpCapabilities := some "caps", sctpCapabilities := some "sc",
                     transports := [{ id := "t1", consuming := false }],
                     producers := [], consumers := [], dataProducers := [],
                     dataConsumers := [] } },
         { id := "bob",
           data := { joined := true, displayName := some "B", device := some "w",
                     rtpCapabilities := some "caps", sctpCapabilities := some "sc",
                     transports := [{ id := "t2", consuming := true }],
                     producers := [], consumers := [], dataProducers := [],
                     dataConsumers := [] } }],
      broadcasters := [], bot := { id := "bdp", label := "bot" },
      networkThrottled := false }
    "alice" "t1" "audio" "p1"
    { id := "alice",
      data := { joined := true, displayName := some "A", device := some "w",
                rtpCapabilities := some "caps", sctpCapabilities := some "sc",
                transports := [{ id := "t1", consuming := false }],
                producers := [], consumers := [], dataProducers := [],
                dataConsumers := [] } }
    { id := "t1", consuming := false }
    (by decide) (by decide) rfl (by decide)
    { id := "bob",
      data := { joined := true, displayName := some "B", device := some "w",
                rtpCapabilities := some "caps", sctpCapabilities := some "sc",
                transports := [{ id := "t2", consuming := true }],
                producers := [], consumers := [], dataProducers := [],
                dataConsumers := [] } }
    (by decide) (by decide) rfl

/-! ### The bot data producer is fixed for the life of a room -/

theorem handlePeerClose_bot (room : RoomM) (pid : String) :
    (handlePeerClose room pid).1.bot = room.bot := by
  unfold handlePeerClose roomClose removePeer
  repeat' split
  all_goals rfl

theorem connectFreshPeer_bot (room : RoomM) (pid : String) :
    (connectFreshPeer room pid).bot = room.bot := by
  unfold connectFreshPeer
  split <;> rfl

theorem handleProtooConnection_bot (room : RoomM) (pid : String) :
    (handleProtooConnection room pid).1.bot = room.bot := by
  unfold handleProtooConnection
  split
  · rw [connectFreshPeer_bot, handlePeerClose_bot]
  · rw [connectFreshPeer_bot]

theorem handleProtooRequest_bot (envSecret : Option String) (room : RoomM)
    (pid : String) (req : ProtooReq) :
    (handleProtooRequest envSecret room pid req).2.1.bot = room.bot := by
  unfold handleProtooRequest
  split
  · rfl
  · cases req <;> first
      | rfl
      | ((repeat' split)
         all_goals rfl)

theorem roomStep_bot (room : RoomM) (op : RoomOp) :
    (roomStep room op).bot = room.bot := by
  cases op with
  | connect pid => exact handleProtooConnection_bot room pid
  | request env pid req => exact handleProtooRequest_bot env room pid req
  | peerClose pid => exact handlePeerClose_bot room pid
  | applyConsumer env cpid ppid pr =>
    show (applyCreateConsumer room env cpid ppid pr).bot = room.bot
    unfold applyCreateConsumer
    split <;> rfl
  | applyDataConsumer res cpid ppid dp =>
    show (applyCreateDataConsumer room res cpid ppid dp).bot = room.bot
    unfold applyCreateDataConsumer
    split <;> rfl
  | bCreate id dn dev caps =>
    show (createBroadcaster room id dn dev caps fun _ => true).2.1.bot = room.bot
    unfold createBroadcaster
    repeat' split
    all_goals rfl
  | bDelete bid =>
    show (deleteBroadcaster room bid).2.1.bot = room.bot
    unfold deleteBroadcaster
    split <;> rfl
  | bCreateTransport bid typ tid =>
    show (createBroadcasterTransport room bid typ tid).2.1.bot = room.bot
    unfold createBroadcasterTransport
    repeat' split
    all_goals rfl
  | bProduce bid tid kind pid =>
    show (createBroadcasterProducer room bid tid kind pid).2.1.bot = room.bot
    unfold createBroadcasterProducer
    repeat' split
    all_goals rfl
  | bConsume bid tid pid cid =>
    show (createBroadcasterConsumer room bid tid pid cid).2.1.bot = room.bot
    unfold createBroadcasterConsumer
    repeat' split
    all_goals rfl
  | bProduceData bid tid lbl dpid =>
    show (createBroadcasterDataProducer room bid tid lbl dpid).2.1.bot = room.bot
    unfold createBroadcasterDataProducer
    repeat' split
    all_goals rfl

theorem runRoom_bot : ∀ (ops : List RoomOp) (room : RoomM),
    (runRoom room ops).bot = room.bot := by
  intro ops
  induction ops with
  | nil => intro room; rfl
  | cons op ops ih =>
    intro room
    show (runRoom (roomStep room op) ops).bot = room.bot
    rw [ih, roomStep_bot]

/-- The trace of a successful `join`: the per-participant consumer and
data-consumer fan-out, the dedicated bot attachment, then the `newPeer`
notifications. -/
theorem handleJoin_events (envSecret : Option String) (room : RoomM)
    (peerId dn dev : String) (rtp sctp : Option String) (p : PeerM)
    (hp : findPeer room peerId = some p) (hj : p.data.joined = false) :
    (handleProtooRequest envSecret room peerId (ProtooReq.join dn dev rtp sctp)).2.2
      = ((joinedPeerViews (updatePeer room peerId fun d =>
            { d with joined := true, displayName := some dn, device := some dev,
                     rtpCapabilities := rtp, sctpCapabilities := sctp })).flatMap
          (joinFanoutFor peerId))
        ++ [Event.dataConsumerCall peerId none room.bot.id room.bot.label]
        ++ ((getJoinedPeers (updatePeer room peerId fun d =>
              { d with joined := true, displayName := some dn, device := some dev,
                       rtpCapabilities := rtp, sctpCapabilities := sctp })
            (some peerId)).map fun op => Event.notifyNewPeer op.id peerId dn dev) := by
  unfold handleProtooRequest
  simp [hp, hj]
  exact ⟨rfl, rfl⟩

/-- C7: during a successful `join`, the generic per-participant
data-consumer fan-out never targets a data producer labelled `bot`
(no generic `_createDataConsumer` invocation carries that label), and
the bot data producer is attached through exactly one dedicated
`_createDataConsumer` invocation with a `null` producing peer; moreover
the bot data producer a room carries is, in every reachable state, the
`bot`-labelled one installed by `Bot.create`. -/
theorem join_bot_channel_dual_path :
    (∀ (envSecret : Option String) (room : RoomM) (peerId dn dev : String)
        (rtp sctp : Option String) (p : PeerM),
      findPeer room peerId = some p → p.data.joined = false →
      "bot" ∉ genericDataConsumerLabels
        (handleProtooRequest envSecret room peerId
          (ProtooReq.join dn dev rtp sctp)).2.2) ∧
    (∀ (envSecret : Option String) (room : RoomM) (peerId dn dev : String)
        (rtp sctp : Option String) (p : PeerM),
      findPeer room peerId = some p → p.data.joined = false →
      botAttachCalls
        (handleProtooRequest envSecret room peerId
          (ProtooReq.join dn dev rtp sctp)).2.2 = [room.bot.id]) ∧
    (∀ (roomId botDataProducerId : String) (ops : List RoomOp),
      (runRoom (initialRoom roomId botDataProducerId) ops).bot
        = { id := botDataProducerId, label := "bot" }) := by
  have hfan : ∀ (peerId : String) (room1 : RoomM) (e : Event),
      e ∈ (joinedPeerViews room1).flatMap (joinFanoutFor peerId) →
      ((match e with
        | Event.dataConsumerCall _ (some _) _ lbl' => some lbl'
        | _ => none) ≠ some "bot") ∧
      (match e with
        | Event.dataConsumerCall _ none dpid _ => some dpid
        | _ => none) = none := by
    intro peerId room1 e he
    obtain ⟨v, _, he2⟩ := List.mem_flatMap.mp he
    unfold joinFanoutFor at he2
    rcases List.mem_append.mp he2 with h2 | h2
    · obtain ⟨pr, _, rfl⟩ := List.mem_map.mp h2
      exact ⟨by simp, rfl⟩
    · obtain ⟨dp, hdp, rfl⟩ := List.mem_map.mp h2
      have hlbl := (List.mem_filter.mp hdp).2
      simp only [decide_eq_true_eq] at hlbl
      refine ⟨?_, rfl⟩
      simpa using hlbl
  refine ⟨?_, ?_, ?_⟩
  · intro envSecret room peerId dn dev rtp sctp p hp hj hmem
    rw [handleJoin_events envSecret room peerId dn dev rtp sctp p hp hj] at hmem
    unfold genericDataConsumerLabels at hmem
    rw [List.filterMap_append, List.filterMap_append] at hmem
    rcases List.mem_append.mp hmem with hmem | hmem
    · rcases List.mem_append.mp hmem with hmem | hmem
      · obtain ⟨e, he, hex⟩ := List.mem_filterMap.mp hmem
        exact (hfan peerId _ e he).1 hex
      · simp at hmem
    · obtain ⟨e, he, hex⟩ := List.mem_filterMap.mp hmem
      obtain ⟨op, _, rfl⟩ := List.mem_map.mp he
      simp at hex
  · intro envSecret room peerId dn dev rtp sctp p hp hj
    rw [handleJoin_events envSecret room peerId dn dev rtp sctp p hp hj]
    unfold botAttachCalls
    rw [List.filterMap_append, List.filterMap_append]
    have h1 : (List.filterMap (fun e =>
        match e with
        | Event.dataConsumerCall _ none dpid _ => some dpid
        | _ => none)
        ((joinedPeerViews (updatePeer room peerId fun d =>
            { d with joined := true, displayName := some dn, device := some dev,
                     rtpCapabilities := rtp, sctpCapabilities := sctp })).flatMap
          (joinFanoutFor peerId))) = [] := by
      rw [List.filterMap_eq_nil_iff]
      intro e he
      exact (hfan peerId _ e he).2
    have h3 : (List.filterMap (fun e =>
        match e with
        | Event.dataConsumerCall _ none dpid _ => some dpid
        | _ => none)
        ((getJoinedPeers (updatePeer room peerId fun d =>
            { d with joined := true, displayName := some dn, device := some dev,
                     rtpCapabilities := rtp, sctpCapabilities := sctp })
          (some peerId)).map fun op => Event.notifyNewPeer op.id peerId dn dev)) = [] := by
      rw [List.filterMap_eq_nil_iff]
      intro e he
      obtain ⟨op, _, rfl⟩ := List.mem_map.mp he
      rfl
    rw [h1, h3]
    rfl
  · intro roomId botDataProducerId ops
    rw [runRoom_bot]
    rfl

theorem join_bot_channel_dual_path_witness :
    botAttachCalls
      (handleProtooRequest none
        { roomId := "r", closed := false,
          peers :=
            [{ id := "alice", data := initialPeerData },
             { id := "bob",
               data := { joined := true, displayName := some "B", device := some "w",
                         rtpCapabilities := some "caps", sctpCapabilities := some "sc",
                         transports := [{ id := "t2", consuming := true }],
                         producers := [],
                         consumers := [],
                         dataProducers := [{ id := "dp1", label := "chat" },
                                           { id := "dpbot", label := "bot" }],
                         dataConsumers := [] } }],
          broadcasters := [], bot := { id := "bdp", label := "bot" },
          networkThrottled := false }
        "alice" (ProtooReq.join "A" "w" (some "caps") (some "sc"))).2.2
      = ["bdp"] ∧
    "bot" ∉ genericDataConsumerLabels
      (handleProtooRequest none
        { roomId := "r", closed := false,
          peers :=
            [{ id := "alice", data := initialPeerData },
             { id := "bob",
               data := { joined := true, displayName := some "B", device := some "w",
                         rtpCapabilities := some "caps", sctpCapabilities := some "sc",
                         transports := [{ id := "t2", consuming := true }],
                         producers := [],
                         consumers := [],
                         dataProducers := [{ id := "dp1", label := "chat" },
                                           { id := "dpbot", label := "bot" }],
                         dataConsumers := [] } }],
          broadcasters := [], bot := { id := "bdp", label := "bot" },
          networkThrottled := false }
        "alice" (ProtooReq.join "A" "w" (some "caps") (some "sc"))).2.2 :=
  ⟨join_bot_channel_dual_path.2.1 none
    { roomId := "r", closed := false,
      peers :=
        [{ id := "alice", data := initialPeerData },
         { id := "bob",
           data := { joined := true, displayName := some "B", device := some "w",
                     rtpCapabilities := some "caps", sctpCapabilities := some "sc",
                     transports := [{ id := "t2", consuming := true }],
                     producers := [],
                     consumers := [],
                     dataProducers := [{ id := "dp1", label := "chat" },
                                       { id := "dpbot", label := "bot" }],
                     dataConsumers := [] } }],
      broadcasters := [], bot := { id := "bdp", label := "bot" },
      networkThrottled := false }
    "alice" "A" "w" (some "caps") (some "sc")
    { id := "alice", data := initialPeerData } (by decide) rfl,
   join_bot_channel_dual_path.1 none
    { roomId := "r", closed := false,
      peers :=
        [{ id := "alice", data := initialPeerData },
         { id := "bob",
           data := { joined := true, displayName := some "B", device := some "w",
                     rtpCapabilities := some "caps", sctpCapabilities := some "sc",
                     transports := [{ id := "t2", consuming := true }],
                     producers := [],
                     consumers := [],
                     dataProducers := [{ id := "dp1", label := "chat" },
                                       { id := "dpbot", label := "bot" }],
                     dataConsumers := [] } }],
      broadcasters := [], bot := { id := "bdp", label := "bot" },
      networkThrottled := false }
    "alice" "A" "w" (some "caps") (some "sc")
    { id := "alice", data := initialPeerData } (by decide) rfl⟩

/-! ### Helper lemmas for the disconnect path -/

theorem peerClosedTargets_map (cid : String) (l : List PeerM) :
    peerClosedTargets cid (l.map fun op => Event.notifyPeerClosed op.id cid)
      = l.map fun op => op.id := by
  induction l with
  | nil => rfl
  | cons a l ih =>
    simp only [List.map_cons, peerClosedTargets, List.filterMap_cons] at ih ⊢
    simp [ih]

theorem peerClosedTargets_transportCloses (cid : String) (l : List TransportM) :
    peerClosedTargets cid (l.map fun t => Event.transportClose t.id) = [] := by
  rw [peerClosedTargets, List.filterMap_eq_nil_iff]
  intro e he
  obtain ⟨t, _, rfl⟩ := List.mem_map.mp he
  rfl

theorem peerClosedTargets_roomClose (cid : String) (r : RoomM) :
    peerClosedTargets cid (roomClose r).2 = [] := by
  unfold roomClose peerClosedTargets
  split <;> rfl

/-- The trace of the `close` handler for a joined peer: the `peerClosed`
notifications to the remaining joined peers, the transport closes, and
the room-close events when no peer remains. -/
theorem handlePeerClose_events (room : RoomM) (peerId : String) (p : PeerM)
    (hcl : room.closed = false) (hp : findPeer room peerId = some p)
    (hj : p.data.joined = true) :
    (handlePeerClose room peerId).2
      = ((getJoinedPeers (removePeer room peerId) (some peerId)).map fun op =>
            Event.notifyPeerClosed op.id peerId)
        ++ (p.data.transports.map fun t => Event.transportClose t.id)
        ++ (if (removePeer room peerId).peers.length = 0
            then (roomClose (removePeer room peerId)).2 else []) := by
  unfold handlePeerClose
  simp only [hcl, hp, hj, Bool.false_eq_true, if_false, if_true]
  split <;> simp

theorem handlePeerClose_closes_room (room : RoomM) (peerId : String) (p : PeerM)
    (hcl : room.closed = false) (hp : findPeer room peerId = some p)
    (hempty : (removePeer room peerId).peers.length = 0) :
    (handlePeerClose room peerId).1.closed = true := by
  unfold handlePeerClose
  simp only [hcl, hp, hempty, Bool.false_eq_true, if_false, if_true]
  rfl

theorem removePeer_ids_sublist (room : RoomM) (peerId : String) :
    ((removePeer room peerId).peers.map fun q => q.id).Sublist
      (room.peers.map fun q => q.id) :=
  (List.filter_sublist _).map _

theorem peerClosedTargets_append (cid : String) (a b : List Event) :
    peerClosedTargets cid (a ++ b)
      = peerClosedTargets cid a ++ peerClosedTargets cid b := by
  simp [peerClosedTargets, List.filterMap_append]

/-- C6: when a joined session disconnects, every other joined peer is
notified `peerClosed` with the disconnected peer's id exactly once and
non-joined peers receive no such notification; every transport the
session owned is closed; and if the room is left with zero sessions it
transitions to closed and its entry disappears from the registry. -/
theorem joined_peer_disconnect_cleanup (room : RoomM) (peerId : String) (p : PeerM)
    (hnodup : (room.peers.map fun q => q.id).Nodup)
    (hcl : room.closed = false)
    (hp : findPeer room peerId = some p)
    (hj : p.data.joined = true) :
    (∀ q ∈ room.peers, q.id ≠ peerId → q.data.joined = true →
      (peerClosedTargets peerId (handlePeerClose room peerId).2).count q.id = 1) ∧
    (∀ q ∈ room.peers, q.data.joined = false →
      q.id ∉ peerClosedTargets peerId (handlePeerClose room peerId).2) ∧
    (∀ t ∈ p.data.transports,
      Event.transportClose t.id ∈ (handlePeerClose room peerId).2) ∧
    ((removePeer room peerId).peers.length = 0 →
      (handlePeerClose room peerId).1.closed = true) ∧
    (∀ (reg : List (String × RoomM)) (roomId : String),
      (reg.find? fun e => e.1 = roomId).map (fun e => e.2) = some room →
      (removePeer room peerId).peers.length = 0 →
      ((systemPeerClose reg roomId peerId).1.find? fun e => e.1 = roomId) = none) := by
  have hev := handlePeerClose_events room peerId p hcl hp hj
  have htargets : peerClosedTargets peerId (handlePeerClose room peerId).2
      = (getJoinedPeers (removePeer room peerId) (some peerId)).map fun op => op.id := by
    rw [hev, peerClosedTargets_append, peerClosedTargets_append,
        peerClosedTargets_map, peerClosedTargets_transportCloses]
    have hlast : peerClosedTargets peerId
        (if (removePeer room peerId).peers.length = 0
         then (roomClose (removePeer room peerId)).2 else []) = [] := by
      split
      · exact peerClosedTargets_roomClose _ _
      · rfl
    rw [hlast]
    simp
  have hnd : ((getJoinedPeers (removePeer room peerId) (some peerId)).map
      fun q => q.id).Nodup :=
    ((getJoinedPeers_ids_sublist _ _).trans (removePeer_ids_sublist room peerId)).nodup hnodup
  refine ⟨?_, ?_, ?_, ?_, ?_⟩
  · intro q hq hne hqj
    rw [htargets]
    refine List.count_eq_one_of_mem hnd (List.mem_map.mpr ⟨q, ?_, rfl⟩)
    refine mem_getJoinedPeers _ _ q ?_ hqj ?_
    · exact List.mem_filter.mpr ⟨hq, by simp [hne]⟩
    · simp
      exact fun h => hne h.symm
  · intro q hq hqj hmem
    rw [htargets] at hmem
    obtain ⟨r, hr, hid⟩ := List.mem_map.mp hmem
    have hr2 := List.mem_filter.mp hr
    have hrmem : r ∈ room.peers := (List.mem_filter.mp hr2.1).1
    have hrj : r.data.joined = true := by
      have := hr2.2
      simp at this
      exact this.1
    have hrq : r = q := List.inj_on_of_nodup_map hnodup hrmem hq hid
    rw [hrq, hqj] at hrj
    exact Bool.noConfusion hrj
  · intro t ht
    rw [hev]
    refine List.mem_append.mpr (Or.inl (List.mem_append.mpr (Or.inr ?_)))
    exact List.mem_map.mpr ⟨t, ht, rfl⟩
  · exact handlePeerClose_closes_room room peerId p hcl hp
  · intro reg roomId hreg hempty
    have hclosed := handlePeerClose_closes_room room peerId p hcl hp hempty
    unfold systemPeerClose
    rw [hreg]
    simp only [hcl, hclosed, Bool.not_false, Bool.true_and, if_true]
    rw [List.find?_eq_none]
    intro x hx
    have hxr := (List.mem_filter.mp hx).2
    simpa using hxr

theorem joined_peer_disconnect_cleanup_witness :
    (peerClosedTargets "alice"
      (handlePeerClose
        { roomId := "r", closed := false,
          peers :=
            [{ id := "alice",
               data := { joined := true, displayName := some "A", device := some "w",
                         rtpCapabilities := some "caps", sctpCapabilities := some "sc",
                         transports := [{ id := "t1", consuming := false }],
                         producers := [], consumers := [], dataProducers := [],
                         dataConsumers := [] } },
             { id := "bob",
               data := { joined := true, displayName := some "B", device := some "w",
                         rtpCapabilities := some "caps", sctpCapabilities := some "sc",
                         transports := [], producers := [], consumers := [],
                         dataProducers := [], dataConsumers := [] } }],
          broadcasters := [], bot := { id := "bdp", label := "bot" },
          networkThrottled := false }
        "alice").2).count "bob" = 1 ∧
    Event.transportClose "t1" ∈
      (handlePeerClose
        { roomId := "r", closed := false,
          peers :=
            [{ id := "alice",
               data := { joined := true, displayName := some "A", device := some "w",
                         rtpCapabilities := some "caps", sctpCapabilities := some "sc",
                         transports := [{ id := "t1", consuming := false }],
                         producers := [], consumers := [], dataProducers := [],
                         dataConsumers := [] } },
             { id := "bob",
               data := { joined := true, displayName := some "B", device := some "w",
                         rtpCapabilities := some "caps", sctpCapabilities := some "sc",
                         transports := [], producers := [], consumers := [],
                         dataProducers := [], dataConsumers := [] } }],
          broadcasters := [], bot := { id := "bdp", label := "bot" },
          networkThrottled := false }
        "alice").2 ∧
    ((systemPeerClose
        [("r",
          { roomId := "r", closed := false,
            peers :=
              [{ id := "alice",
                 data := { joined := true, displayName := some "A", device := some "w",
                           rtpCapabilities := some "caps", sctpCapabilities := some "sc",
                           transports := [{ id := "t1", consuming := false }],
                           producers := [], consumers := [], dataProducers := [],
                           dataConsumers := [] } }],
            broadcasters := [], bot := { id := "bdp", label := "bot" },
            networkThrottled := false })]
        "r" "alice").1.find? fun e => e.1 = "r") = none := by
  refine ⟨?_, ?_, ?_⟩
  · exact (joined_peer_disconnect_cleanup _ "alice"
      { id := "alice",
        data := { joined := true, displayName := some "A", device := some "w",
                  rtpCapabilities := some "caps", sctpCapabilities := some "sc",
                  transports := [{ id := "t1", consuming := false }],
                  producers := [], consumers := [], dataProducers := [],
                  dataConsumers := [] } }
      (by decide) rfl (by decide) rfl).1
      { id := "bob",
        data := { joined := true, displayName := some "B", device := some "w",
                  rtpCapabilities := some "caps", sctpCapabilities := some "sc",
                  transports := [], producers := [], consumers := [],
                  dataProducers := [], dataConsumers := [] } }
      (by decide) (by decide) rfl
  · exact (joined_peer_disconnect_cleanup _ "alice"
      { id := "alice",
        data := { joined := true, displayName := some "A", device := some "w",
                  rtpCapabilities := some "caps", sctpCapabilities := some "sc",
                  transports := [{ id := "t1", consuming := false }],
                  producers := [], consumers := [], dataProducers := [],
                  dataConsumers := [] } }
      (by decide) rfl (by decide) rfl).2.2.1
      { id := "t1", consuming := false } (by decide)
  · exact (joined_peer_disconnect_cleanup
      { roomId := "r", closed := false,
        peers :=
          [{ id := "alice",
             data := { joined := true, displayName := some "A", device := some "w",
                       rtpCapabilities := some "caps", sctpCapabilities := some "sc",
                       transports := [{ id := "t1", consuming := false }],
                       producers := [], consumers := [], dataProducers := [],
                       dataConsumers := [] } }],
        broadcasters := [], bot := { id := "bdp", label := "bot" },
        networkThrottled := false }
      "alice"
      { id := "alice",
        data := { joined := true, displayName := some "A", device := some "w",
                  rtpCapabilities := some "caps", sctpCapabilities := some "sc",
                  transports := [{ id := "t1", consuming := false }],
                  producers := [], consumers := [], dataProducers := [],
                  dataConsumers := [] } }
      (by decide) rfl (by decide) rfl).2.2.2.2
      [("r",
        { roomId := "r", closed := false,
          peers :=
            [{ id := "alice",
               data := { joined := true, displayName := some "A", device := some "w",
                         rtpCapabilities := some "caps", sctpCapabilities := some "sc",
                         transports := [{ id := "t1", consuming := false }],
                         producers := [], consumers := [], dataProducers := [],
                         dataConsumers := [] } }],
          broadcasters := [], bot := { id := "bdp", label := "bot" },
          networkThrottled := false })]
      "r" (by decide) (by decide)

/-! ### Registry lemmas (serialized `getOrCreateRoom`) -/

theorem getOrCreateRoom_preserves (st : Registry) (rid rid' : String) (ok : Bool) (r : Nat)
    (h : lookupRoom st rid = some r) :
    lookupRoom (getOrCreateRoom st rid' ok).2 rid = some r ∧
    createdCount (getOrCreateRoom st rid' ok).2 rid = createdCount st rid ∧
    (rid' = rid → (getOrCreateRoom st rid' ok).1 = Except.ok r) := by
  unfold getOrCreateRoom
  cases hl : lookupRoom st rid' with
  | some r0 =>
    refine ⟨h, rfl, ?_⟩
    intro he
    subst he
    rw [h] at hl
    cases hl
    rfl
  | none =>
    have hne : rid' ≠ rid := by
      intro he
      rw [he, h] at hl
      cases hl
    by_cases hok : ok = true
    · subst hok
      simp only [if_true]
      refine ⟨?_, ?_, fun he => absurd he hne⟩
      · unfold lookupRoom at h ⊢
        simpa [List.find?_cons, hne] using h
      · simp only [createdCount, List.count_append]
        have hz : List.count rid [rid'] = 0 :=
          List.count_eq_zero.mpr (by simpa using Ne.symm hne)
        omega
    · simp only [hok, Bool.false_eq_true, if_false]
      exact ⟨h, by trivial, fun he => absurd he hne⟩

theorem getOrCreateRoom_ok_lookup (st : Registry) (rid : String) (ok : Bool) (r : Nat)
    (h : (getOrCreateRoom st rid ok).1 = Except.ok r) :
    lookupRoom (getOrCreateRoom st rid ok).2 rid = some r := by
  unfold getOrCreateRoom at h ⊢
  cases hl : lookupRoom st rid with
  | some r0 =>
    rw [hl] at h
    simp at h
    subst h
    exact hl
  | none =>
    rw [hl] at h
    by_cases hok : ok = true
    · subst hok
      simp only [if_true] at h ⊢
      simp at h
      subst h
      simp [lookupRoom, List.find?_cons]
    · simp [hok] at h

theorem getOrCreateRoom_other (st : Registry) (rid rid' : String) (ok : Bool)
    (hne : rid' ≠ rid) :
    lookupRoom (getOrCreateRoom st rid' ok).2 rid = lookupRoom st rid ∧
    createdCount (getOrCreateRoom st rid' ok).2 rid = createdCount st rid := by
  unfold getOrCreateRoom
  cases hl : lookupRoom st rid' with
  | some r0 => exact ⟨rfl, rfl⟩
  | none =>
    by_cases hok : ok = true
    · subst hok
      simp only [if_true]
      constructor
      · simp [lookupRoom, List.find?_cons, hne]
      · simp only [createdCount, List.count_append]
        have hz : List.count rid [rid'] = 0 :=
          List.count_eq_zero.mpr (by simpa using Ne.symm hne)
        omega
    · simp only [hok, Bool.false_eq_true, if_false]
      exact ⟨by trivial, by trivial⟩

theorem runQueue_persist : ∀ (reqs : List (String × Bool)) (st : Registry)
    (rid : String) (r : Nat), lookupRoom st rid = some r →
    (∀ res, (rid, res) ∈ (runQueue st reqs).1 → res = Except.ok r) ∧
    lookupRoom (runQueue st reqs).2 rid = some r ∧
    createdCount (runQueue st reqs).2 rid = createdCount st rid := by
  intro reqs
  induction reqs with
  | nil =>
    intro st rid r h
    exact ⟨fun res hres => absurd hres (List.not_mem_nil _), h, rfl⟩
  | cons q reqs ih =>
    intro st rid r h
    obtain ⟨rid', ok⟩ := q
    have hpres := getOrCreateRoom_preserves st rid rid' ok r h
    have ihr := ih (getOrCreateRoom st rid' ok).2 rid r hpres.1
    refine ⟨?_, ?_, ?_⟩
    · intro res hres
      simp only [runQueue] at hres
      rcases List.mem_cons.mp hres with h0 | h0
      · have h1 : rid = rid' := congrArg Prod.fst h0
        have h2 : res = (getOrCreateRoom st rid' ok).1 := congrArg Prod.snd h0
        rw [h2]
        exact hpres.2.2 h1.symm
      · exact ihr.1 res h0
    · show lookupRoom (runQueue (getOrCreateRoom st rid' ok).2 reqs).2 rid = some r
      exact ihr.2.1
    · show createdCount (runQueue (getOrCreateRoom st rid' ok).2 reqs).2 rid
        = createdCount st rid
      rw [ihr.2.2, hpres.2.1]

theorem runQueue_ok_unique : ∀ (reqs : List (String × Bool)) (st : Registry)
    (rid : String) (r r' : Nat),
    (rid, Except.ok r) ∈ (runQueue st reqs).1 →
    (rid, Except.ok r') ∈ (runQueue st reqs).1 → r = r' := by
  intro reqs
  induction reqs with
  | nil =>
    intro st rid r r' h
    exact absurd h (List.not_mem_nil _)
  | cons q reqs ih =>
    intro st rid r r' h h'
    obtain ⟨rid', ok⟩ := q
    simp only [runQueue] at h h'
    rcases List.mem_cons.mp h with h0 | h0 <;> rcases List.mem_cons.mp h' with h1 | h1
    · have h2 : (Except.ok r : Except Unit Nat) = (getOrCreateRoom st rid' ok).1 :=
        congrArg Prod.snd h0
      have h3 : (Except.ok r' : Except Unit Nat) = (getOrCreateRoom st rid' ok).1 :=
        congrArg Prod.snd h1
      rw [← h3] at h2
      cases h2
      rfl
    · have heq : rid = rid' := congrArg Prod.fst h0
      have h2 : (getOrCreateRoom st rid' ok).1 = Except.ok r :=
        (congrArg Prod.snd h0).symm
      subst heq
      have hlk := getOrCreateRoom_ok_lookup st rid ok r h2
      have := (runQueue_persist reqs _ rid r hlk).1 _ h1
      cases this
      rfl
    · have heq : rid = rid' := congrArg Prod.fst h1
      have h2 : (getOrCreateRoom st rid' ok).1 = Except.ok r' :=
        (congrArg Prod.snd h1).symm
      subst heq
      have hlk := getOrCreateRoom_ok_lookup st rid ok r' h2
      have := (runQueue_persist reqs _ rid r' hlk).1 _ h0
      cases this
      rfl
    · exact ih _ rid r r' h0 h1

theorem runQueue_creates_once : ∀ (reqs : List (String × Bool)) (st : Registry)
    (rid : String), lookupRoom st rid = none → (rid, true) ∈ reqs →
    createdCount (runQueue st reqs).2 rid = createdCount st rid + 1 := by
  intro reqs
  induction reqs with
  | nil =>
    intro st rid _ hm
    exact absurd hm (List.not_mem_nil _)
  | cons q reqs ih =>
    intro st rid h0 hm
    obtain ⟨rid', ok⟩ := q
    by_cases hne : rid' = rid
    · subst hne
      by_cases hok : ok = true
      · subst hok
        have hcreate : (getOrCreateRoom st rid' true).2
            = { rooms := (rid', st.nextRoom) :: st.rooms,
                nextRoom := st.nextRoom + 1,
                created := st.created ++ [rid'] } := by
          unfold getOrCreateRoom
          rw [h0]
          rfl
        have hlk : lookupRoom (getOrCreateRoom st rid' true).2 rid'
            = some st.nextRoom := by
          rw [hcreate]
          simp [lookupRoom, List.find?_cons]
        have hcount : createdCount (getOrCreateRoom st rid' true).2 rid'
            = createdCount st rid' + 1 := by
          rw [hcreate]
          simp [createdCount, List.count_append]
        show createdCount (runQueue (getOrCreateRoom st rid' true).2 reqs).2 rid'
          = createdCount st rid' + 1
        rw [(runQueue_persist reqs _ rid' st.nextRoom hlk).2.2, hcount]
      · have hok' : ok = false := by
          cases ok
          · rfl
          · exact absurd rfl hok
        subst hok'
        have hstep : getOrCreateRoom st rid' false = (Except.error (), st) := by
          unfold getOrCreateRoom
          rw [h0]
          rfl
        have hm' : (rid', true) ∈ reqs := by
          rcases List.mem_cons.mp hm with h | h
          · exact absurd (congrArg Prod.snd h).symm (by simp)
          · exact h
        show createdCount (runQueue (getOrCreateRoom st rid' false).2 reqs).2 rid'
          = createdCount st rid' + 1
        rw [hstep]
        exact ih st rid' h0 hm'
    · have hother := getOrCreateRoom_other st rid rid' ok hne
      have hm' : (rid, true) ∈ reqs := by
        rcases List.mem_cons.mp hm with h | h
        · exact absurd (congrArg Prod.fst h).symm hne
        · exact h
      show createdCount (runQueue (getOrCreateRoom st rid' ok).2 reqs).2 rid
        = createdCount st rid + 1
      rw [ih (getOrCreateRoom st rid' ok).2 rid (hother.1.trans h0) hm', hother.2]

/-- C1: with all `getOrCreateRoom` tasks serialized through the FIFO
queue, any two callers that resolve a room id successfully receive the
same Room instance; starting from a registry with no entry and no prior
construction for an id, a batch containing a successful request for that
id constructs exactly one Room; the Room's `close` event removes its
registry entry; and a creation failure propagates as an error to the
caller and registers nothing. -/
theorem room_registry_single_instance :
    (∀ (st : Registry) (reqs : List (String × Bool)) (rid : String) (r r' : Nat),
      (rid, Except.ok r) ∈ (runQueue st reqs).1 →
      (rid, Except.ok r') ∈ (runQueue st reqs).1 → r = r') ∧
    (∀ (st : Registry) (reqs : List (String × Bool)) (rid : String),
      lookupRoom st rid = none → createdCount st rid = 0 → (rid, true) ∈ reqs →
      createdCount (runQueue st reqs).2 rid = 1) ∧
    (∀ (st : Registry) (rid : String), lookupRoom (onRoomClose st rid) rid = none) ∧
    (∀ (st : Registry) (rid : String), lookupRoom st rid = none →
      getOrCreateRoom st rid false = (Except.error (), st)) := by
  refine ⟨fun st reqs => runQueue_ok_unique reqs st, ?_, ?_, ?_⟩
  · intro st reqs rid h0 hc hm
    rw [runQueue_creates_once reqs st rid h0 hm, hc]
  · intro st rid
    have hfind : (st.rooms.filter fun e => decide (e.1 ≠ rid)).find?
        (fun e => decide (e.1 = rid)) = none := by
      rw [List.find?_eq_none]
      intro x hx
      have hxr := (List.mem_filter.mp hx).2
      simpa using hxr
    simp [lookupRoom, onRoomClose, hfind]
  · intro st rid h0
    unfold getOrCreateRoom
    rw [h0]
    rfl

theorem room_registry_single_instance_witness :
    ("a", Except.ok (0 : Nat)) ∈
      (runQueue { rooms := [], nextRoom := 0, created := [] }
        [("a", true), ("a", true)]).1 ∧
    (0 : Nat) = 0 ∧
    createdCount
      (runQueue { rooms := [], nextRoom := 0, created := [] }
        [("a", true), ("a", true)]).2 "a" = 1 ∧
    lookupRoom (onRoomClose { rooms := [("a", 0)], nextRoom := 1, created := ["a"] } "a") "a"
      = none ∧
    getOrCreateRoom { rooms := [], nextRoom := 0, created := [] } "b" false
      = (Except.error (), { rooms := [], nextRoom := 0, created := [] }) :=
  ⟨List.Mem.head _,
   room_registry_single_instance.1 { rooms := [], nextRoom := 0, created := [] }
     [("a", true), ("a", true)] "a" 0 0 (List.Mem.head _) (List.Mem.head _),
   room_registry_single_instance.2.1 { rooms := [], nextRoom := 0, created := [] }
     [("a", true), ("a", true)] "a" (by decide) (by decide) (by decide),
   room_registry_single_instance.2.2.1
     { rooms := [("a", 0)], nextRoom := 1, created := ["a"] } "a",
   room_registry_single_instance.2.2.2
     { rooms := [], nextRoom := 0, created := [] } "b" (by decide)⟩

/-! ### Preservation of the pre-join invariant -/

theorem roomInv_updatePeer_pointwise (room : RoomM) (pid : String)
    (f : PeerData → PeerData)
    (hf : ∀ d, PreJoinEmpty d → PreJoinEmpty (f d)) (h : RoomInv room) :
    RoomInv (updatePeer room pid f) := by
  refine ⟨by rw [updatePeer_ids]; exact h.1, ?_⟩
  intro q hq
  simp only [updatePeer, List.mem_map] at hq
  obtain ⟨p, hp, rfl⟩ := hq
  by_cases hid : p.id = pid
  · rw [if_pos hid]
    exact hf _ (h.2 p hp)
  · rw [if_neg hid]
    exact h.2 p hp

theorem roomInv_updatePeer_found (room : RoomM) (pid : String)
    (f : PeerData → PeerData) (p : PeerM) (hp : findPeer room pid = some p)
    (h : RoomInv room) (hf : PreJoinEmpty (f p.data)) :
    RoomInv (updatePeer room pid f) := by
  refine ⟨by rw [updatePeer_ids]; exact h.1, ?_⟩
  intro q hq
  simp only [updatePeer, List.mem_map] at hq
  obtain ⟨r, hr, rfl⟩ := hq
  by_cases hid : r.id = pid
  · rw [if_pos hid]
    have hpmem : p ∈ room.peers := List.mem_of_find?_eq_some hp
    have hpid : p.id = pid := by
      have := List.find?_some hp
      simpa using this
    have hrp : r = p := List.inj_on_of_nodup_map h.1 hr hpmem (by rw [hid, hpid])
    rw [hrp]
    exact hf
  · rw [if_neg hid]
    exact h.2 r hr

theorem createConsumer_data_fields (env : ConsumerEnv) (p : PeerM) (ppid : String)
    (pr : ProducerM) :
    (createConsumer env p ppid pr).1.joined = p.data.joined ∧
    (createConsumer env p ppid pr).1.producers = p.data.producers ∧
    (createConsumer env p ppid pr).1.dataProducers = p.data.dataProducers := by
  unfold createConsumer
  repeat' split
  all_goals exact ⟨rfl, rfl, rfl⟩

theorem createDataConsumer_data_fields (res : Option String) (p : PeerM)
    (ppid : Option String) (dp : DataProducerM) :
    (createDataConsumer res p ppid dp).1.joined = p.data.joined ∧
    (createDataConsumer res p ppid dp).1.producers = p.data.producers ∧
    (createDataConsumer res p ppid dp).1.dataProducers = p.data.dataProducers := by
  unfold createDataConsumer
  repeat' split
  all_goals exact ⟨rfl, rfl, rfl⟩

theorem removePeer_inv (room : RoomM) (pid : String) (h : RoomInv room) :
    RoomInv (removePeer room pid) := by
  refine ⟨(removePeer_ids_sublist room pid).nodup h.1, ?_⟩
  intro q hq
  exact h.2 q (List.mem_of_mem_filter hq)

theorem handlePeerClose_state (room : RoomM) (pid : String) :
    (room.closed = true ∧ (handlePeerClose room pid).1 = room) ∨
    (findPeer room pid = none ∧ (handlePeerClose room pid).1 = room) ∨
    (handlePeerClose room pid).1 = removePeer room pid ∨
    (handlePeerClose room pid).1 = (roomClose (removePeer room pid)).1 := by
  unfold handlePeerClose
  split
  · rename_i hcl
    exact Or.inl ⟨hcl, rfl⟩
  · split
    · rename_i hfp
      exact Or.inr (Or.inl ⟨hfp, rfl⟩)
    · by_cases hlen : (removePeer room pid).peers.length = 0
      · refine Or.inr (Or.inr (Or.inr ?_))
        simp only [hlen, if_true]
      · refine Or.inr (Or.inr (Or.inl ?_))
        simp only [hlen, if_false]

theorem handlePeerClose_inv (room : RoomM) (pid : String) (h : RoomInv room) :
    RoomInv (handlePeerClose room pid).1 := by
  rcases handlePeerClose_state room pid with ⟨_, he⟩ | ⟨_, he⟩ | he | he <;> rw [he]
  · exact h
  · exact h
  · exact removePeer_inv room pid h
  · exact removePeer_inv room pid h

theorem connectFreshPeer_inv (room : RoomM) (pid : String) (h : RoomInv room)
    (hnp : room.closed = true ∨ pid ∉ room.peers.map fun q => q.id) :
    RoomInv (connectFreshPeer room pid) := by
  unfold connectFreshPeer
  split
  · exact h
  · rename_i hcl
    have hnp' : pid ∉ room.peers.map fun q => q.id := by
      rcases hnp with hnp | hnp
      · exact absurd hnp hcl
      · exact hnp
    constructor
    · rw [List.map_append]
      refine h.1.append (List.nodup_singleton pid) ?_
      intro a ha hb
      simp only [List.map_cons, List.map_nil, List.mem_singleton] at hb
      subst hb
      exact hnp' ha
    · intro q hq
      rcases List.mem_append.mp hq with hq | hq
      · exact h.2 q hq
      · simp only [List.mem_singleton] at hq
        subst hq
        intro _
        exact ⟨rfl, rfl⟩

theorem handleProtooConnection_inv (room : RoomM) (pid : String) (h : RoomInv room) :
    RoomInv (handleProtooConnection room pid).1 := by
  unfold handleProtooConnection
  split
  · rename_i hsome
    apply connectFreshPeer_inv _ _ (handlePeerClose_inv room pid h)
    rcases handlePeerClose_state room pid with ⟨hcl, he⟩ | ⟨hfp, he⟩ | he | he
    · rw [he]
      exact Or.inl hcl
    · rw [hfp] at hsome
      cases hsome
    · rw [he]
      refine Or.inr ?_
      intro hm
      obtain ⟨q, hq, hid⟩ := List.mem_map.mp hm
      have hq2 := (List.mem_filter.mp hq).2
      simp [hid] at hq2
    · rw [he]
      exact Or.inl rfl
  · rename_i hno
    refine connectFreshPeer_inv room pid h (Or.inr ?_)
    intro hm
    obtain ⟨q, hq, hid⟩ := List.mem_map.mp hm
    have hfn : findPeer room pid = none := by
      cases hfp : findPeer room pid with
      | none => rfl
      | some p =>
        rw [hfp] at hno
        cases hno rfl
    have := List.find?_eq_none.mp hfn q hq
    simp [hid] at this

theorem applyCreateConsumer_inv (room : RoomM) (env : ConsumerEnv)
    (cpid ppid : String) (pr : ProducerM) (h : RoomInv room) :
    RoomInv (applyCreateConsumer room env cpid ppid pr) := by
  unfold applyCreateConsumer
  split
  · exact h
  · rename_i p hp
    refine roomInv_updatePeer_found room cpid _ p hp h ?_
    have hfields := createConsumer_data_fields env p ppid pr
    have hpre := h.2 p (List.mem_of_find?_eq_some hp)
    intro hj
    rw [hfields.1] at hj
    have hem := hpre hj
    exact ⟨hfields.2.1.trans hem.1, hfields.2.2.trans hem.2⟩

theorem applyCreateDataConsumer_inv (room : RoomM) (res : Option String)
    (cpid : String) (ppid : Option String) (dp : DataProducerM) (h : RoomInv room) :
    RoomInv (applyCreateDataConsumer room res cpid ppid dp) := by
  unfold applyCreateDataConsumer
  split
  · exact h
  · rename_i p hp
    refine roomInv_updatePeer_found room cpid _ p hp h ?_
    have hfields := createDataConsumer_data_fields res p ppid dp
    have hpre := h.2 p (List.mem_of_find?_eq_some hp)
    intro hj
    rw [hfields.1] at hj
    have hem := hpre hj
    exact ⟨hfields.2.1.trans hem.1, hfields.2.2.trans hem.2⟩

theorem roomInv_congr_peers (room room' : RoomM) (hp : room'.peers = room.peers)
    (h : RoomInv room) : RoomInv room' := by
  unfold RoomInv at h ⊢
  rw [hp]
  exact h

theorem handleProtooRequest_inv (envSecret : Option String) (room : RoomM)
    (pid : String) (req : ProtooReq) (h : RoomInv room) :
    RoomInv (handleProtooRequest envSecret room pid req).2.1 := by
  cases hfp : findPeer room pid with
  | none =>
    simp only [handleProtooRequest, hfp]
    exact h
  | some peer =>
    cases req with
    | getRouterRtpCapabilities =>
      simp only [handleProtooRequest, hfp]
      exact h
    | join dn dev rtp sctp =>
      simp only [handleProtooRequest, hfp]
      split
      · exact h
      · refine roomInv_updatePeer_pointwise room pid _ ?_ h
        intro d _ hj
        exact Bool.noConfusion hj
    | createWebRtcTransport tid consuming =>
      simp only [handleProtooRequest, hfp]
      exact roomInv_updatePeer_pointwise room pid _ (fun d hd hj => hd hj) h
    | connectWebRtcTransport tid =>
      simp only [handleProtooRequest, hfp]
      split <;> exact h
    | restartIce tid =>
      simp only [handleProtooRequest, hfp]
      split <;> exact h
    | produce tid kind newPid =>
      simp only [handleProtooRequest, hfp]
      split
      · exact h
      · rename_i hj
        split
        · exact h
        · have hjoined : peer.data.joined = true := by
            revert hj
            cases peer.data.joined <;> simp
          refine roomInv_updatePeer_found room pid _ peer hfp h ?_
          intro hjf
          have hjf' : peer.data.joined = false := hjf
          rw [hjoined] at hjf'
          exact Bool.noConfusion hjf'
    | closeProducer producerId =>
      simp only [handleProtooRequest, hfp]
      split
      · exact h
      · split
        · exact h
        · refine roomInv_updatePeer_pointwise room pid _ (fun d hd hj => ?_) h
          have hem := hd hj
          refine ⟨?_, hem.2⟩
          show List.filter _ d.producers = []
          rw [hem.1]
          rfl
    | pauseProducer producerId =>
      simp only [handleProtooRequest, hfp]
      split
      · exact h
      · split <;> exact h
    | resumeProducer producerId =>
      simp only [handleProtooRequest, hfp]
      split
      · exact h
      · split <;> exact h
    | pauseConsumer consumerId =>
      simp only [handleProtooRequest, hfp]
      split
      · exact h
      · split <;> exact h
    | resumeConsumer consumerId =>
      simp only [handleProtooRequest, hfp]
      split
      · exact h
      · split <;> exact h
    | setConsumerPreferredLayers consumerId =>
      simp only [handleProtooRequest, hfp]
      split
      · exact h
      · split <;> exact h
    | setConsumerPriority consumerId =>
      simp only [handleProtooRequest, hfp]
      split
      · exact h
      · split <;> exact h
    | requestConsumerKeyFrame consumerId =>
      simp only [handleProtooRequest, hfp]
      split
      · exact h
      · split <;> exact h
    | produceData tid lbl newDpid =>
      simp only [handleProtooRequest, hfp]
      split
      · exact h
      · rename_i hj
        split
        · exact h
        · have hjoined : peer.data.joined = true := by
            revert hj
            cases peer.data.joined <;> simp
          refine roomInv_updatePeer_found room pid _ peer hfp h ?_
          intro hjf
          have hjf' : peer.data.joined = false := hjf
          rw [hjoined] at hjf'
          exact Bool.noConfusion hjf'
    | changeDisplayName dn =>
      simp only [handleProtooRequest, hfp]
      split
      · exact h
      · exact roomInv_updatePeer_pointwise room pid _ (fun d hd hj => hd hj) h
    | mixerDataChanged =>
      simp only [handleProtooRequest, hfp]
      split <;> exact h
    | getTransportStats tid =>
      simp only [handleProtooRequest, hfp]
      split <;> exact h
    | getProducerStats producerId =>
      simp only [handleProtooRequest, hfp]
      split <;> exact h
    | getConsumerStats consumerId =>
      simp only [handleProtooRequest, hfp]
      split <;> exact h
    | getDataProducerStats dataProducerId =>
      simp only [handleProtooRequest, hfp]
      split <;> exact h
    | getDataConsumerStats dataConsumerId =>
      simp only [handleProtooRequest, hfp]
      split <;> exact h
    | applyNetworkThrottle secret ok =>
      simp only [handleProtooRequest, hfp]
      repeat' split
      all_goals exact h
    | resetNetworkThrottle secret ok =>
      simp only [handleProtooRequest, hfp]
      repeat' split
      all_goals exact h
    | unknownMethod m =>
      simp only [handleProtooRequest, hfp]
      exact h

theorem createBroadcaster_peers (room : RoomM) (id dn dev : String)
    (caps : Option String) (cc : String → Bool) :
    (createBroadcaster room id dn dev caps cc).2.1.peers = room.peers := by
  unfold createBroadcaster
  repeat' split
  all_goals rfl

theorem deleteBroadcaster_peers (room : RoomM) (bid : String) :
    (deleteBroadcaster room bid).2.1.peers = room.peers := by
  unfold deleteBroadcaster
  split <;> rfl

theorem createBroadcasterTransport_peers (room : RoomM) (bid typ tid : String) :
    (createBroadcasterTransport room bid typ tid).2.1.peers = room.peers := by
  unfold createBroadcasterTransport
  repeat' split
  all_goals rfl

theorem createBroadcasterProducer_peers (room : RoomM) (bid tid kind pid : String) :
    (createBroadcasterProducer room bid tid kind pid).2.1.peers = room.peers := by
  unfold createBroadcasterProducer
  repeat' split
  all_goals rfl

theorem createBroadcasterConsumer_peers (room : RoomM) (bid tid pid : String)
    (cid : Option String) :
    (createBroadcasterConsumer room bid tid pid cid).2.1.peers = room.peers := by
  unfold createBroadcasterConsumer
  repeat' split
  all_goals rfl

theorem createBroadcasterDataProducer_peers (room : RoomM) (bid tid lbl dpid : String) :
    (createBroadcasterDataProducer room bid tid lbl dpid).2.1.peers = room.peers := by
  unfold createBroadcasterDataProducer
  repeat' split
  all_goals rfl

theorem roomStep_inv (room : RoomM) (op : RoomOp) (h : RoomInv room) :
    RoomInv (roomStep room op) := by
  cases op with
  | connect pid => exact handleProtooConnection_inv room pid h
  | request env pid req => exact handleProtooRequest_inv env room pid req h
  | peerClose pid => exact handlePeerClose_inv room pid h
  | applyConsumer env cpid ppid pr => exact applyCreateConsumer_inv room env cpid ppid pr h
  | applyDataConsumer res cpid ppid dp =>
    exact applyCreateDataConsumer_inv room res cpid ppid dp h
  | bCreate id dn dev caps =>
    exact roomInv_congr_peers room _ (createBroadcaster_peers room id dn dev caps _) h
  | bDelete bid => exact roomInv_congr_peers room _ (deleteBroadcaster_peers room bid) h
  | bCreateTransport bid typ tid =>
    exact roomInv_congr_peers room _ (createBroadcasterTransport_peers room bid typ tid) h
  | bProduce bid tid kind pid =>
    exact roomInv_congr_peers room _ (createBroadcasterProducer_peers room bid tid kind pid) h
  | bConsume bid tid pid cid =>
    exact roomInv_congr_peers room _ (createBroadcasterConsumer_peers room bid tid pid cid) h
  | bProduceData bid tid lbl dpid =>
    exact roomInv_congr_peers room _
      (createBroadcasterDataProducer_peers room bid tid lbl dpid) h

theorem runRoom_inv : ∀ (ops : List RoomOp) (room : RoomM),
    RoomInv room → RoomInv (runRoom room ops) := by
  intro ops
  induction ops with
  | nil => intro room h; exact h
  | cons op ops ih =>
    intro room h
    exact ih (roomStep room op) (roomStep_inv room op h)

/-- C4: a `produce` or `produceData` request from a session with
`joined = false` rejects with the state error `Peer not yet joined`
before any engine call (the trace is empty and the room unchanged, so no
producer or data producer is created); consequently, in every room state
reachable from a fresh room by connections, requests, disconnects,
consumer-builder executions and broadcaster operations, a session whose
`joined` flag is still false owns no producers and no data producers. -/
theorem produce_requires_join :
    (∀ (envSecret : Option String) (room : RoomM) (pid tid kind newPid : String)
        (p : PeerM),
      findPeer room pid = some p → p.data.joined = false →
      handleProtooRequest envSecret room pid (ProtooReq.produce tid kind newPid)
        = (Outcome.rejectErr "Peer not yet joined", room, [])) ∧
    (∀ (envSecret : Option String) (room : RoomM) (pid tid lbl newDpid : String)
        (p : PeerM),
      findPeer room pid = some p → p.data.joined = false →
      handleProtooRequest envSecret room pid (ProtooReq.produceData tid lbl newDpid)
        = (Outcome.rejectErr "Peer not yet joined", room, [])) ∧
    (∀ (roomId botId : String) (ops : List RoomOp) (p : PeerM),
      p ∈ (runRoom (initialRoom roomId botId) ops).peers →
      p.data.joined = false →
      p.data.producers = [] ∧ p.data.dataProducers = []) := by
  refine ⟨?_, ?_, ?_⟩
  · intro envSecret room pid tid kind newPid p hp hj
    simp only [handleProtooRequest, hp]
    simp [hj]
  · intro envSecret room pid tid lbl newDpid p hp hj
    simp only [handleProtooRequest, hp]
    simp [hj]
  · intro roomId botId ops p hp hj
    have hinv : RoomInv (runRoom (initialRoom roomId botId) ops) :=
      runRoom_inv ops _ ⟨by simp [initialRoom], fun q hq => absurd hq (List.not_mem_nil _)⟩
    exact hinv.2 p hp hj

theorem produce_requires_join_witness :
    handleProtooRequest none
        { roomId := "r", closed := false,
          peers := [{ id := "alice", data := initialPeerData }],
          broadcasters := [], bot := { id := "bdp", label := "bot" },
          networkThrottled := false }
        "alice" (ProtooReq.produce "t1" "audio" "p1")
      = (Outcome.rejectErr "Peer not yet joined",
         { roomId := "r", closed := false,
           peers := [{ id := "alice", data := initialPeerData }],
           broadcasters := [], bot := { id := "bdp", label := "bot" },
           networkThrottled := false }, []) ∧
    handleProtooRequest none
        { roomId := "r", closed := false,
          peers := [{ id := "alice", data := initialPeerData }],
          broadcasters := [], bot := { id := "bdp", label := "bot" },
          networkThrottled := false }
        "alice" (ProtooReq.produceData "t1" "chat" "dp1")
      = (Outcome.rejectErr "Peer not yet joined",
         { roomId := "r", closed := false,
           peers := [{ id := "alice", data := initialPeerData }],
           broadcasters := [], bot := { id := "bdp", label := "bot" },
           networkThrottled := false }, []) ∧
    ({ id := "alice", data := initialPeerData } : PeerM).data.producers = [] ∧
    ({ id := "alice", data := initialPeerData } : PeerM).data.dataProducers = [] :=
  ⟨produce_requires_join.1 none _ "alice" "t1" "audio" "p1"
     { id := "alice", data := initialPeerData } (by decide) rfl,
   produce_requires_join.2.1 none _ "alice" "t1" "chat" "dp1"
     { id := "alice", data := initialPeerData } (by decide) rfl,
   produce_requires_join.2.2 "r" "bdp" [RoomOp.connect "alice"]
     { id := "alice", data := initialPeerData } (by decide) rfl⟩

/-- C8 counterexample: with one joined peer in the room, a broadcaster
data producer is created successfully, yet no `_createDataConsumer`
invocation is made for any peer — the data fan-out claimed by the spec
does not happen (the loop is commented out in the source), refuting
"every producer the broadcaster subsequently creates (media and data
alike) is immediately fanned out to every currently joined peer". -/
theorem broadcaster_data_fanout_counterexample :
    (createBroadcasterDataProducer
        { roomId := "r", closed := false,
          peers :=
            [{ id := "alice",
               data := { joined := true, displayName := some "A", device := some "w",
                         rtpCapabilities := some "caps", sctpCapabilities := some "sc",
                         transports := [{ id := "ta", consuming := true }],
                         producers := [], consumers := [], dataProducers := [],
                         dataConsumers := [] } }],
          broadcasters := [{ id := "b1", displayName := "B", deviceName := "cam",
                             rtpCapabilities := some "caps",
                             transports := [{ id := "t1", consuming := false }],
                             producers := [], consumers := [], dataProducers := [],
                             dataConsumers := [] }],
          bot := { id := "bdp", label := "bot" }, networkThrottled := false }
        "b1" "t1" "chat" "dp1").1 = Except.ok "dp1" ∧
    (getJoinedPeers
        { roomId := "r", closed := false,
          peers :=
            [{ id := "alice",
               data := { joined := true, displayName := some "A", device := some "w",
                         rtpCapabilities := some "caps", sctpCapabilities := some "sc",
                         transports := [{ id := "ta", consuming := true }],
                         producers := [], consumers := [], dataProducers := [],
                         dataConsumers := [] } }],
          broadcasters := [{ id := "b1", displayName := "B", deviceName := "cam",
                             rtpCapabilities := some "caps",
                             transports := [{ id := "t1", consuming := false }],
                             producers := [], consumers := [], dataProducers := [],
                             dataConsumers := [] }],
          bot := { id := "bdp", label := "bot" }, networkThrottled := false }
        none).map (fun p => p.id) = ["alice"] ∧
    dataConsumerCallTargets "dp1"
      (createBroadcasterDataProducer
        { roomId := "r", closed := false,
          peers :=
            [{ id := "alice",
               data := { joined := true, displayName := some "A", device := some "w",
                         rtpCapabilities := some "caps", sctpCapabilities := some "sc",
                         transports := [{ id := "ta", consuming := true }],
                         producers := [], consumers := [], dataProducers := [],
                         dataConsumers := [] } }],
          broadcasters := [{ id := "b1", displayName := "B", deviceName := "cam",
                             rtpCapabilities := some "caps",
                             transports := [{ id := "t1", consuming := false }],
                             producers := [], consumers := [], dataProducers := [],
                             dataConsumers := [] }],
          bot := { id := "bdp", label := "bot" }, networkThrottled := false }
        "b1" "t1" "chat" "dp1").2.2 = [] :=
  ⟨rfl, rfl, rfl⟩

theorem newPeerTargets_map (nid dn dev : String) (l : List PeerM) :
    newPeerTargets nid (l.map fun p => Event.notifyNewPeer p.id nid dn dev)
      = l.map fun p => (p.id, dn, dev) := by
  induction l with
  | nil => rfl
  | cons a l ih =>
    simp only [List.map_cons, newPeerTargets, List.filterMap_cons] at ih ⊢
    simp [ih]

/-- C8 (amended): on successful broadcaster creation every currently
joined peer is immediately notified `newPeer` with the broadcaster's id,
display name and device exactly once (no separate join step, and the
broadcaster is registered in the room's broadcaster set at once); every
**media** producer the broadcaster subsequently creates is immediately
fanned out to every currently joined peer through `_createConsumer`; but
a broadcaster **data** producer is never fanned out — the code performs
no `_createDataConsumer` invocation on that path. -/
theorem broadcaster_immediate_visibility :
    (∀ (room : RoomM) (id dn dev : String) (caps : Option String)
        (cc : String → Bool) (q : PeerM),
      (room.peers.map fun r => r.id).Nodup →
      id ≠ "" → dn ≠ "" → dev ≠ "" → findBroadcaster room id = none →
      q ∈ room.peers → q.data.joined = true →
      ((newPeerTargets id (createBroadcaster room id dn dev caps cc).2.2).map
        (fun x => x.1)).count q.id = 1 ∧
      (∀ x ∈ newPeerTargets id (createBroadcaster room id dn dev caps cc).2.2,
        x.2.1 = dn ∧ x.2.2 = dev)) ∧
    (∀ (room : RoomM) (id dn dev : String) (caps : Option String)
        (cc : String → Bool),
      id ≠ "" → dn ≠ "" → dev ≠ "" → findBroadcaster room id = none →
      (createBroadcaster room id dn dev caps cc).2.1.broadcasters
        = room.broadcasters
          ++ [{ id := id, displayName := dn, deviceName := dev,
                rtpCapabilities := caps, transports := [], producers := [],
                consumers := [], dataProducers := [], dataConsumers := [] }]) ∧
    (∀ (room : RoomM) (bid tid kind newPid : String) (b : BroadcasterM)
        (t : TransportM) (q : PeerM),
      (room.peers.map fun r => r.id).Nodup →
      findBroadcaster room bid = some b →
      b.transports.find? (fun tr => tr.id = tid) = some t →
      q ∈ room.peers → q.data.joined = true →
      (consumerCallTargets newPid
        (createBroadcasterProducer room bid tid kind newPid).2.2).count q.id = 1) ∧
    (∀ (room : RoomM) (bid tid lbl newDpid dpid : String),
      dataConsumerCallTargets dpid
        (createBroadcasterDataProducer room bid tid lbl newDpid).2.2 = []) := by
  refine ⟨?_, ?_, ?_, ?_⟩
  · intro room id dn dev caps cc q hnodup hid hdn hdev hfb hq hqj
    unfold createBroadcaster
    simp only [hid, hdn, hdev, hfb, Option.isSome_none, Bool.false_eq_true, if_false,
      if_neg]
    rw [newPeerTargets_map]
    have hmem : q ∈ getJoinedPeers room none :=
      mem_getJoinedPeers room none q hq hqj (by simp)
    constructor
    · have h2 : ((getJoinedPeers room none).map fun p => ((p.id, dn, dev) :
          String × String × String)).map (fun x => x.1)
          = (getJoinedPeers room none).map fun p => p.id := by
        rw [List.map_map]
        rfl
      rw [h2]
      exact List.count_eq_one_of_mem
        ((getJoinedPeers_ids_sublist room none).nodup hnodup)
        (List.mem_map.mpr ⟨q, hmem, rfl⟩)
    · intro x hx
      obtain ⟨p, _, rfl⟩ := List.mem_map.mp hx
      exact ⟨rfl, rfl⟩
  · intro room id dn dev caps cc hid hdn hdev hfb
    unfold createBroadcaster
    simp only [hid, hdn, hdev, hfb, Option.isSome_none, Bool.false_eq_true, if_false,
      if_neg]
  · intro room bid tid kind newPid b t q hnodup hfb ht hq hqj
    have hfb' : (room.broadcasters.find? fun b' => b'.id = bid) = some b := hfb
    unfold createBroadcasterProducer
    simp only [hfb, hfb', Option.some_bind, ht]
    rw [consumerCallTargets_append, consumerCallTargets_append, consumerCallTargets_map]
    have h1 : consumerCallTargets newPid [Event.routerProduce tid kind] = [] := rfl
    have h3 : consumerCallTargets newPid
        (if kind = "audio" then [Event.addAudioProducer newPid] else []) = [] := by
      by_cases hk : kind = "audio" <;> simp [hk, consumerCallTargets]
    rw [h1, h3]
    simp only [List.nil_append, List.append_nil]
    have hmem : q ∈ getJoinedPeers
        (updateBroadcaster room bid fun b' =>
          { b' with producers := b'.producers
              ++ [{ id := newPid, kind := kind, appDataPeerId := none }] }) none :=
      mem_getJoinedPeers _ none q hq hqj (by simp)
    have hnd : ((getJoinedPeers
        (updateBroadcaster room bid fun b' =>
          { b' with producers := b'.producers
              ++ [{ id := newPid, kind := kind, appDataPeerId := none }] }) none).map
        fun r => r.id).Nodup :=
      (getJoinedPeers_ids_sublist _ none).nodup hnodup
    exact List.count_eq_one_of_mem hnd (List.mem_map.mpr ⟨q, hmem, rfl⟩)
  · intro room bid tid lbl newDpid dpid
    unfold createBroadcasterDataProducer
    repeat' split
    all_goals rfl

theorem broadcaster_immediate_visibility_witness :
    ((newPeerTargets "b1"
      (createBroadcaster
        { roomId := "r", closed := false,
          peers :=
            [{ id := "alice",
               data := { joined := true, displayName := some "A", device := some "w",
                         rtpCapabilities := some "caps", sctpCapabilities := some "sc",
                         transports := [{ id := "ta", consuming := true }],
                         producers := [], consumers := [], dataProducers := [],
                         dataConsumers := [] } }],
          broadcasters := [], bot := { id := "bdp", label := "bot" },
          networkThrottled := false }
        "b1" "B" "cam" (some "caps") (fun _ => true)).2.2).map (fun x => x.1)).count
      "alice" = 1 ∧
    (consumerCallTargets "p9"
      (createBroadcasterProducer
        { roomId := "r", closed := false,
          peers :=
            [{ id := "alice",
               data := { joined := true, displayName := some "A", device := some "w",
                         rtpCapabilities := some "caps", sctpCapabilities := some "sc",
                         transports := [{ id := "ta", consuming := true }],
                         producers := [], consumers := [], dataProducers := [],
                         dataConsumers := [] } }],
          broadcasters := [{ id := "b1", displayName := "B", deviceName := "cam",
                             rtpCapabilities := some "caps",
                             transports := [{ id := "t1", consuming := false }],
                             producers := [], consumers := [], dataProducers := [],
                             dataConsumers := [] }],
          bot := { id := "bdp", label := "bot" }, networkThrottled := false }
        "b1" "t1" "audio" "p9").2.2).count "alice" = 1 ∧
    dataConsumerCallTargets "dp1"
      (createBroadcasterDataProducer
        { roomId := "r", closed := false,
          peers :=
            [{ id := "alice",
               data := { joined := true, displayName := some "A", device := some "w",
                         rtpCapabilities := some "caps", sctpCapabilities := some "sc",
                         transports := [{ id := "ta", consuming := true }],
                         producers := [], consumers := [], dataProducers := [],
                         dataConsumers := [] } }],
          broadcasters := [{ id := "b1", displayName := "B", deviceName := "cam",
                             rtpCapabilities := some "caps",
                             transports := [{ id := "t1", consuming := false }],
                             producers := [], consumers := [], dataProducers := [],
                             dataConsumers := [] }],
          bot := { id := "bdp", label := "bot" }, networkThrottled := false }
        "b1" "t1" "chat" "dp1").2.2 = [] :=
  ⟨(broadcaster_immediate_visibility.1
      { roomId := "r", closed := false,
        peers :=
          [{ id := "alice",
             data := { joined := true, displayName := some "A", device := some "w",
                       rtpCapabilities := some "caps", sctpCapabilities := some "sc",
                       transports := [{ id := "ta", consuming := true }],
                       producers := [], consumers := [], dataProducers := [],
                       dataConsumers := [] } }],
        broadcasters := [], bot := { id := "bdp", label := "bot" },
        networkThrottled := false }
      "b1" "B" "cam" (some "caps") (fun _ => true)
      { id := "alice",
        data := { joined := true, displayName := some "A", device := some "w",
                  rtpCapabilities := some "caps", sctpCapabilities := some "sc",
                  transports := [{ id := "ta", consuming := true }],
                  producers := [], consumers := [], dataProducers := [],
                  dataConsumers := [] } }
      (by decide) (by decide) (by decide) (by decide) (by decide) (by decide) rfl).1,
   broadcaster_immediate_visibility.2.2.1
      { roomId := "r", closed := false,
        peers :=
          [{ id := "alice",
             data := { joined := true, displayName := some "A", device := some "w",
                       rtpCapabilities := some "caps", sctpCapabilities := some "sc",
                       transports := [{ id := "ta", consuming := true }],
                       producers := [], consumers := [], dataProducers := [],
                       dataConsumers := [] } }],
        broadcasters := [{ id := "b1", displayName := "B", deviceName := "cam",
                           rtpCapabilities := some "caps",
                           transports := [{ id := "t1", consuming := false }],
                           producers := [], consumers := [], dataProducers := [],
                           dataConsumers := [] }],
        bot := { id := "bdp", label := "bot" }, networkThrottled := false }
      "b1" "t1" "audio" "p9"
      { id := "b1", displayName := "B", deviceName := "cam",
        rtpCapabilities := some "caps",
        transports := [{ id := "t1", consuming := false }],
        producers := [], consumers := [], dataProducers := [], dataConsumers := [] }
      { id := "t1", consuming := false }
      { id := "alice",
        data := { joined := true, displayName := some "A", device := some "w",
                  rtpCapabilities := some "caps", sctpCapabilities := some "sc",
                  transports := [{ id := "ta", consuming := true }],
                  producers := [], consumers := [], dataProducers := [],
                  dataConsumers := [] } }
      (by decide) (by decide) (by decide) (by decide) rfl,
   broadcaster_immediate_visibility.2.2.2
      { roomId := "r", closed := false,
        peers :=
          [{ id := "alice",
             data := { joined := true, displayName := some "A", device := some "w",
                       rtpCapabilities := some "caps", sctpCapabilities := some "sc",
                       transports := [{ id := "ta", consuming := true }],
                       producers := [], consumers := [], dataProducers := [],
                       dataConsumers := [] } }],
        broadcasters := [{ id := "b1", displayName := "B", deviceName := "cam",
                           rtpCapabilities := some "caps",
                           transports := [{ id := "t1", consuming := false }],
                           producers := [], consumers := [], dataProducers := [],
                           dataConsumers := [] }],
        bot := { id := "bdp", label := "bot" }, networkThrottled := false }
      "b1" "t1" "chat" "dp1" "dp1"⟩

end WebrtcMediasoup
